import Mathlib

/-!
# Shallow embedding of the streamvis statistics aggregation core

This file embeds the statistics accumulators of the `streamvis` repository:

* `NPFIFOArray` (the spec's `RingBuffer`) from `src/streamvis/cbd_statistic_tools.py`,
* `AggregatorWithID` (the spec's `IdentifiedRingBuffer`) from the same file,
* `CBDStatisticsHandler` (the spec's `BinnedStatisticsTable` + `StatisticsFacade`)
  from `src/streamvis/jfcbd_statistics_handler.py`,

and proves the spec claims about them.

Modelling conventions:

* numpy arrays of fixed shape `(max_span,)` become Lean `List`s whose length is
  kept invariant by the operations;
* numeric cell values that may hold either a number or the `np.nan`
  "not applicable" marker are modelled by the inductive type `Cell`
  (`Cell.num q` for a number, `Cell.nan` for the marker); arithmetic on cells
  mirrors IEEE `nan` propagation (`nan + 1 = nan`, `nan / x = nan`, …);
* comparison of a buffer slot with the empty sentinel (`self._x != self._nan`)
  is modelled as decidable disequality of cell values.  For integer sentinels
  this is exactly the numpy behaviour; IEEE `NaN` self-inequality is not
  modelled (no claim depends on it);
* Python's negative indexing (`lst[-1]`, slices `lst[start:]` with negative
  `start`, and `list.index(x, -5)`) is modelled by explicit index
  normalisation helpers;
* logging and the reentrant lock are not modelled: each operation is a pure
  state transformer, which is the sequential semantics of the locked code.
-/

/-- A numeric cell of the statistics tables: either a rational number or the
`np.nan` "not applicable" marker stored by the source into Python lists. -/
inductive Cell where
  | num (q : ℚ)
  | nan
deriving DecidableEq, Repr

namespace Cell

/-- `c += 1` on a cell: `nan + 1 = nan` (IEEE propagation), numbers increment. -/
def add1 : Cell → Cell
  | num q => num (q + 1)
  | nan => nan

/-- Division of cells, `hits / nframes` in the source.  `nan` propagates.
A zero numeric denominator cannot arise on the paths of `parse` (the
denominator has just been incremented there); it is mapped to `nan`. -/
def div : Cell → Cell → Cell
  | num a, num b => if b = 0 then nan else num (a / b)
  | _, _ => nan

/-- `np.sum` over a list of cells (`nan` propagates, empty sum is `0`). -/
def sum (l : List Cell) : Cell :=
  l.foldr (fun c acc =>
    match c, acc with
    | num a, num b => num (a + b)
    | _, _ => nan) (num 0)

/-- `np.average` over a list of cells: the sum divided by the length
(`nan` on an empty list, matching numpy's `nan` result). -/
def average (l : List Cell) : Cell :=
  if l.length = 0 then nan else Cell.div (Cell.sum l) (num l.length)

end Cell

/-- `np.roll(xs, k)`: cyclically shift a fixed-length array right by `k`
positions (`k` may be negative for a left shift, as numpy allows). -/
def npRoll {α : Type} (xs : List α) (k : Int) : List α :=
  let n := xs.length
  if n = 0 then xs
  else
    let s : Nat := (k % (n : Int)).toNat
    xs.drop (n - s) ++ xs.take (n - s)

/-- Normalise a Python index (`-1` is the last element) against length `n`. -/
def pyIdx (n : Nat) (i : Int) : Nat :=
  if i < 0 then ((n : Int) + i).toNat else i.toNat

/-- Read a list at a Python-style index, with a default for out-of-range
(out-of-range does not occur on the embedded code paths). -/
def pyGet {α : Type} (xs : List α) (i : Int) (default : α) : α :=
  xs.getD (pyIdx xs.length i) default

/-- Write a list at a Python-style index (`lst[i] = v`). -/
def pySet {α : Type} (xs : List α) (i : Int) (v : α) : List α :=
  xs.set (pyIdx xs.length i) v

/-- Python slice `lst[start:]` with a possibly negative `start`
(negative start counts from the end and clamps at `0`). -/
def pySliceFrom {α : Type} (xs : List α) (start : Int) : List α :=
  if start < 0 then xs.drop (xs.length - (-start).toNat)
  else xs.drop start.toNat

/-- Normalise a Python slice/search start position against length `n`
(negative counts from the end and clamps at `0`). -/
def pyStart (n : Nat) (start : Int) : Nat :=
  if start < 0 then (max ((n : Int) + start) 0).toNat else start.toNat

/-- Python `list.index(v, start)` with a possibly negative `start`:
search from the normalised start position, return the absolute index of the
first match, or `none` where Python raises `ValueError`. -/
def pyIndexFrom {α : Type} [DecidableEq α] (xs : List α) (v : α) (start : Int) :
    Option Nat :=
  match (xs.drop (pyStart xs.length start)).findIdx? (· = v) with
  | some j => some (pyStart xs.length start + j)
  | none => none

/-! ## `NPFIFOArray` (the spec's `RingBuffer`), from `cbd_statistic_tools.py` -/

/-- State of `NPFIFOArray`: a fixed-length value store `x`, the empty sentinel
`nan`, the last reduction result `last_value`, and the configured reduction
`aggregate` (stored at construction, as in `__init__`). -/
structure NPFIFOArray (α : Type) where
  x : List α
  nan : α
  last_value : α
  aggregate : List α → α

namespace NPFIFOArray

/-- `NPFIFOArray.__init__`: `max_span` slots filled with the sentinel. -/
def init {α : Type} (nan : α) (max_span : Nat) (aggregate : List α → α) :
    NPFIFOArray α :=
  { x := List.replicate max_span nan
    nan := nan
    last_value := nan
    aggregate := aggregate }

/-- `NPFIFOArray.update`: roll the store right by `len(values)`, overwrite the
first `len(values)` slots with `values`, and set `last_value` to the
reduction of `values`. -/
def update {α : Type} (b : NPFIFOArray α) (values : List α) : NPFIFOArray α :=
  { b with
    x := values ++ (npRoll b.x (values.length : Int)).drop values.length
    last_value := b.aggregate values }

/-- `NPFIFOArray.clear`: reset every slot to the sentinel (`last_value` kept). -/
def clear {α : Type} (b : NPFIFOArray α) : NPFIFOArray α :=
  { b with x := List.replicate b.x.length b.nan }

/-- `NPFIFOArray.__call__`: the slots differing from the sentinel, in order. -/
def validValues {α : Type} [DecidableEq α] (b : NPFIFOArray α) : List α :=
  b.x.filter (· ≠ b.nan)

/-- `NPFIFOArray.__bool__`: some slot differs from the sentinel. -/
def isNonempty {α : Type} [DecidableEq α] (b : NPFIFOArray α) : Bool :=
  b.x.any (· ≠ b.nan)

end NPFIFOArray

/-! ## `AggregatorWithID` (the spec's `IdentifiedRingBuffer`) -/

/-- State of `AggregatorWithID`: parallel fixed-length stores `x` (values) and
`id` (pulse identifiers), the sentinel, the last aggregated value, the
reduction, and `last_processed_index` (the spec's `cursor`, a non-positive
offset counting unread tail entries). -/
structure AggregatorWithID (α : Type) where
  x : List α
  id : List Int
  nan : α
  last_value : α
  aggregate : List α → α
  last_processed_index : Int

namespace AggregatorWithID

/-- `AggregatorWithID.__init__`. -/
def init {α : Type} (nan : α) (max_span : Nat) (aggregate : List α → α) :
    AggregatorWithID α :=
  { x := List.replicate max_span nan
    id := List.replicate max_span 0
    nan := nan
    last_value := nan
    aggregate := aggregate
    last_processed_index := 0 }

/-- `AggregatorWithID.update`: with an absent (`None`) pulse identifier, warn
and return with no state change; otherwise aggregate the batch to one value,
roll both stores left by one, write the pair into the freed tail slots, set
`last_value`, and decrement the cursor. -/
def update {α : Type} (b : AggregatorWithID α) (values : List α)
    (pulse_id : Option Int) : AggregatorWithID α :=
  match pulse_id with
  | none => b
  | some pid =>
    let value := b.aggregate values
    { b with
      x := pySet (npRoll b.x (-1)) (-1) value
      id := pySet (npRoll b.id (-1)) (-1) pid
      last_value := value
      last_processed_index := b.last_processed_index - 1 }

/-- `AggregatorWithID.count`: number of slots differing from the sentinel. -/
def count {α : Type} [DecidableEq α] (b : AggregatorWithID α) : Nat :=
  (b.x.filter (· ≠ b.nan)).length

/-- `AggregatorWithID.__bool__`. -/
def isNonempty {α : Type} [DecidableEq α] (b : AggregatorWithID α) : Bool :=
  b.x.any (· ≠ b.nan)

/-- `AggregatorWithID.__call__` (the spec's `drain`): if no slot is valid or
the cursor is `0`, return two empty sequences (state unchanged); otherwise
return the unread tail slices and reset the cursor to `0`. -/
def drain {α : Type} [DecidableEq α] (b : AggregatorWithID α) :
    (List α × List Int) × AggregatorWithID α :=
  if ¬ b.isNonempty ∨ b.last_processed_index = 0 then (([], []), b)
  else
    let start_id := b.last_processed_index
    ((pySliceFrom b.x start_id, pySliceFrom b.id start_id),
      { b with last_processed_index := 0 })

/-- `AggregatorWithID.last`: the pair at the final slots `(_x[-1], _id[-1])`.
The stores have fixed positive length, so the source never raises here; on a
buffer with no valid entries this returns the `(sentinel, 0)` fill pair. -/
def last {α : Type} (b : AggregatorWithID α) : α × Int :=
  (b.x.getLastD b.nan, b.id.getLastD 0)

/-- `AggregatorWithID.clear`. -/
def clear {α : Type} (b : AggregatorWithID α) : AggregatorWithID α :=
  { b with
    x := List.replicate b.x.length b.nan
    id := List.replicate b.id.length 0
    last_processed_index := 0 }

end AggregatorWithID

/-! ## `CBDStatisticsHandler` (the spec's `BinnedStatisticsTable` +
`StatisticsFacade`), from `jfcbd_statistics_handler.py` -/

/-- The source constant `PULSE_ID_STEP = 10000`, the fixed bin width. -/
def PULSE_ID_STEP : Int := 10000

/-- An entry of the `pulse_id_bins` list: the Python lists hold either an
integer bin key (in `data`) or the string `"Summary"` (in `sum_data`). -/
inductive BinKey where
  | bin (i : Int)
  | summary
deriving DecidableEq, Repr

/-- The named counter/ratio columns of the statistics dictionaries
(every key of `data` except `pulse_id_bins`). -/
inductive StatKey where
  | nframes
  | bad_frames
  | sat_pix_nframes
  | laser_on_nframes
  | laser_on_hits
  | laser_on_hits_ratio
  | laser_off_nframes
  | laser_off_hits
  | laser_off_hits_ratio
deriving DecidableEq, Repr, Fintype

/-- One statistics dictionary (`self.data` or `self.sum_data`): the
`pulse_id_bins` key list plus one cell list per counter/ratio column. -/
structure StatData where
  pulse_id_bins : List BinKey
  nframes : List Cell
  bad_frames : List Cell
  sat_pix_nframes : List Cell
  laser_on_nframes : List Cell
  laser_on_hits : List Cell
  laser_on_hits_ratio : List Cell
  laser_off_nframes : List Cell
  laser_off_hits : List Cell
  laser_off_hits_ratio : List Cell
deriving DecidableEq, Repr

namespace StatData

/-- Column lookup `self.data[key]`. -/
def col (d : StatData) : StatKey → List Cell
  | .nframes => d.nframes
  | .bad_frames => d.bad_frames
  | .sat_pix_nframes => d.sat_pix_nframes
  | .laser_on_nframes => d.laser_on_nframes
  | .laser_on_hits => d.laser_on_hits
  | .laser_on_hits_ratio => d.laser_on_hits_ratio
  | .laser_off_nframes => d.laser_off_nframes
  | .laser_off_hits => d.laser_off_hits
  | .laser_off_hits_ratio => d.laser_off_hits_ratio

/-- Replace one column. -/
def setCol (d : StatData) (k : StatKey) (l : List Cell) : StatData :=
  match k with
  | .nframes => { d with nframes := l }
  | .bad_frames => { d with bad_frames := l }
  | .sat_pix_nframes => { d with sat_pix_nframes := l }
  | .laser_on_nframes => { d with laser_on_nframes := l }
  | .laser_on_hits => { d with laser_on_hits := l }
  | .laser_on_hits_ratio => { d with laser_on_hits_ratio := l }
  | .laser_off_nframes => { d with laser_off_nframes := l }
  | .laser_off_hits => { d with laser_off_hits := l }
  | .laser_off_hits_ratio => { d with laser_off_hits_ratio := l }

/-- `self.data[key][ind]` (Python indexing; the default is unreachable on the
embedded paths because `ind` always points at an existing row). -/
def getCell (d : StatData) (k : StatKey) (i : Int) : Cell :=
  pyGet (d.col k) i Cell.nan

/-- `self.data[key][ind] = c`. -/
def setCell (d : StatData) (k : StatKey) (i : Int) (c : Cell) : StatData :=
  d.setCol k (pySet (d.col k) i c)

/-- The `__init__` value of `self.data`: every list empty. -/
def empty : StatData :=
  { pulse_id_bins := []
    nframes := []
    bad_frames := []
    sat_pix_nframes := []
    laser_on_nframes := []
    laser_on_hits := []
    laser_on_hits_ratio := []
    laser_off_nframes := []
    laser_off_hits := []
    laser_off_hits_ratio := [] }

/-- The `__init__` value of `self.sum_data`: the `"Summary"` key plus a
single `0` in every counter column. -/
def summaryInit : StatData :=
  { pulse_id_bins := [BinKey.summary]
    nframes := [Cell.num 0]
    bad_frames := [Cell.num 0]
    sat_pix_nframes := [Cell.num 0]
    laser_on_nframes := [Cell.num 0]
    laser_on_hits := [Cell.num 0]
    laser_on_hits_ratio := [Cell.num 0]
    laser_off_nframes := [Cell.num 0]
    laser_off_hits := [Cell.num 0]
    laser_off_hits_ratio := [Cell.num 0] }

/-- The bin-creation loop of `parse` (lines 114-119): append the new key to
`pulse_id_bins` and a `0` to every other column. -/
def appendZero (d : StatData) (k : BinKey) : StatData :=
  { pulse_id_bins := d.pulse_id_bins ++ [k]
    nframes := d.nframes ++ [Cell.num 0]
    bad_frames := d.bad_frames ++ [Cell.num 0]
    sat_pix_nframes := d.sat_pix_nframes ++ [Cell.num 0]
    laser_on_nframes := d.laser_on_nframes ++ [Cell.num 0]
    laser_on_hits := d.laser_on_hits ++ [Cell.num 0]
    laser_on_hits_ratio := d.laser_on_hits_ratio ++ [Cell.num 0]
    laser_off_nframes := d.laser_off_nframes ++ [Cell.num 0]
    laser_off_hits := d.laser_off_hits ++ [Cell.num 0]
    laser_off_hits_ratio := d.laser_off_hits_ratio ++ [Cell.num 0] }

/-- The `reset` loop over `self.sum_data` (lines 164-166): set element `0` of
every counter list to `0`, keeping `pulse_id_bins` untouched. -/
def zeroFirst (d : StatData) : StatData :=
  { pulse_id_bins := d.pulse_id_bins
    nframes := pySet d.nframes 0 (Cell.num 0)
    bad_frames := pySet d.bad_frames 0 (Cell.num 0)
    sat_pix_nframes := pySet d.sat_pix_nframes 0 (Cell.num 0)
    laser_on_nframes := pySet d.laser_on_nframes 0 (Cell.num 0)
    laser_on_hits := pySet d.laser_on_hits 0 (Cell.num 0)
    laser_on_hits_ratio := pySet d.laser_on_hits_ratio 0 (Cell.num 0)
    laser_off_nframes := pySet d.laser_off_nframes 0 (Cell.num 0)
    laser_off_hits := pySet d.laser_off_hits 0 (Cell.num 0)
    laser_off_hits_ratio := pySet d.laser_off_hits_ratio 0 (Cell.num 0) }

end StatData

/-- Metadata record: the optional stream fields consumed by `parse`
(`none` means the key is absent from the dictionary). -/
structure Metadata where
  pulse_id : Option Int
  is_hit_frame : Option Bool
  is_good_frame : Option Bool
  saturated_pixels : Option Int
  laser_on : Option Bool
  bragg_counts : Option (List ℚ)
  number_of_streaks : Option Int
  streak_lengths : Option (List ℚ)
deriving DecidableEq, Repr

/-- Lift a metadata number list into cell values. -/
def toCells (l : List ℚ) : List Cell := l.map Cell.num

/-- `CBDStatisticsHandler._increment(key, ind)` acting on the
`(data, sum_data)` pair: `data[key][ind] += 1` and `sum_data[key][-1] += 1`. -/
def increment (k : StatKey) (i : Int) (d sd : StatData) : StatData × StatData :=
  (d.setCell k i ((d.getCell k i).add1),
   sd.setCell k (-1) ((sd.getCell k (-1)).add1))

/-- The try/except bin lookup of `parse` (lines 106-112): the absolute index
of the key within the last 5 entries of `bins`, or `-1` when the search
raises `ValueError` (a new bin). -/
def binIndexOf (bins : List BinKey) (key : Int) : Int :=
  match pyIndexFrom bins (BinKey.bin key) (-5) with
  | some i => (i : Int)
  | none => -1

/-- The nframes/bad_frames block of `parse` (lines 121-124): always increment
`nframes`; increment `bad_frames` when the metadata carries a good-frame flag
that is false. -/
def goodStep (md : Metadata) (i : Int) (p : StatData × StatData) :
    StatData × StatData :=
  let p1 := increment .nframes i p.1 p.2
  if md.is_good_frame = some false then increment .bad_frames i p1.1 p1.2
  else p1

/-- The saturated-pixels block of `parse` (lines 126-130): if the field is
present, increment `sat_pix_nframes` when it is nonzero; if absent, mark the
bin's `sat_pix_nframes` with `np.nan`. -/
def satStep (md : Metadata) (i : Int) (p : StatData × StatData) :
    StatData × StatData :=
  match md.saturated_pixels with
  | some k => if k ≠ 0 then increment .sat_pix_nframes i p.1 p.2 else p
  | none => (p.1.setCell .sat_pix_nframes i Cell.nan, p.2)

/-- The `f"{switch}_nframes"` key selected by the laser flag. -/
def laserNfKey (b : Bool) : StatKey :=
  if b then .laser_on_nframes else .laser_off_nframes

/-- The `f"{switch}_hits"` key selected by the laser flag. -/
def laserHitKey (b : Bool) : StatKey :=
  if b then .laser_on_hits else .laser_off_hits

/-- The `f"{switch}_hits_ratio"` key selected by the laser flag. -/
def laserRatKey (b : Bool) : StatKey :=
  if b then .laser_on_hits_ratio else .laser_off_hits_ratio

/-- The laser-present branch of the laser block (lines 133-145): increment
the matching `laser_*_nframes` (and, on a hit frame, `laser_*_hits`) of bin
and summary, then recompute that laser state's hit ratio for both. -/
def laserSome (b : Bool) (is_hit_frame : Bool) (i : Int)
    (p : StatData × StatData) : StatData × StatData :=
  let p4 := increment (laserNfKey b) i p.1 p.2
  let p5 := if is_hit_frame then increment (laserHitKey b) i p4.1 p4.2
            else p4
  (p5.1.setCell (laserRatKey b) i
      (Cell.div (p5.1.getCell (laserHitKey b) i)
        (p5.1.getCell (laserNfKey b) i)),
   p5.2.setCell (laserRatKey b) (-1)
      (Cell.div (p5.2.getCell (laserHitKey b) (-1))
        (p5.2.getCell (laserNfKey b) (-1))))

/-- The laser-absent branch (lines 146-152): mark all six laser fields of
the bin with `np.nan`; the summary is untouched. -/
def laserNone (i : Int) (p : StatData × StatData) : StatData × StatData :=
  (((((p.1.setCell .laser_on_nframes i Cell.nan).setCell
        .laser_on_hits i Cell.nan).setCell
        .laser_on_hits_ratio i Cell.nan).setCell
        .laser_off_nframes i Cell.nan).setCell
        .laser_off_hits i Cell.nan |>.setCell
        .laser_off_hits_ratio i Cell.nan,
   p.2)

/-- The laser block of `parse` (lines 132-152): with the tri-state flag
present, increment the matching `laser_on_*`/`laser_off_*` counters and
recompute that laser state's hit ratio for the bin and the summary; with the
flag absent, mark all six laser fields of the bin with `np.nan`. -/
def laserStep (md : Metadata) (is_hit_frame : Bool) (i : Int)
    (p : StatData × StatData) : StatData × StatData :=
  match md.laser_on with
  | some b => laserSome b is_hit_frame i p
  | none => laserNone i p

/-- The counter-update part of the locked block (lines 121-152), after the
bin has been looked up or created: `bin_ind` addresses the bin row of `data`
(Python indexing, `-1` is the freshly appended row). -/
def recordCore (md : Metadata) (is_hit_frame : Bool) (bin_ind : Int)
    (d sd : StatData) : StatData × StatData :=
  laserStep md is_hit_frame bin_ind (satStep md bin_ind (goodStep md bin_ind (d, sd)))

/-- The locked table-update block of `CBDStatisticsHandler.parse`
(lines 105-152), as a transformer of the `(data, sum_data)` pair.

Modelled from the spec: the source block reads the locals `pulse_id_bin` and
`laser_on` whose defining assignments are not present in the source tree.
Per the spec (§4.3, §6): `bin_id = pulse_identifier // BIN_WIDTH` with
`BIN_WIDTH` a fixed constant (the module constant `PULSE_ID_STEP`, taken here
as the parameter `binWidth`), an absent pulse identifier makes the record
step skip entirely, and `laser_on` is the tri-state laser-state metadata
field. -/
def recordTable (binWidth : Int) (md : Metadata) (is_hit_frame : Bool)
    (d0 sd0 : StatData) : StatData × StatData :=
  match md.pulse_id with
  | none => (d0, sd0)
  | some pid =>
    let pulse_id_bin := Int.fdiv pid binWidth
    let bin_ind : Int := binIndexOf d0.pulse_id_bins pulse_id_bin
    recordCore md is_hit_frame bin_ind
      (if bin_ind = (-1 : Int) then d0.appendZero (BinKey.bin pulse_id_bin)
       else d0) sd0

/-- The bin row index the locked block operates on for pulse id `pid`:
the absolute index of the matched bin, or `-1` (the freshly appended row). -/
def resolvedBin (binWidth : Int) (pid : Int) (d : StatData) : Int :=
  binIndexOf d.pulse_id_bins (Int.fdiv pid binWidth)

/-- The `data` table right after the bin-creation step of the locked block:
unchanged on a lookback hit, extended by a zero-initialized bin otherwise. -/
def resolvedData (binWidth : Int) (pid : Int) (d : StatData) : StatData :=
  if binIndexOf d.pulse_id_bins (Int.fdiv pid binWidth) = (-1 : Int)
  then d.appendZero (BinKey.bin (Int.fdiv pid binWidth)) else d

/-- State of `CBDStatisticsHandler`: the three `NPFIFOArray` accumulators,
the identified aggregator, and the two statistics dictionaries. -/
structure CBDStatisticsHandler where
  number_of_streaks : NPFIFOArray Cell
  streak_lengths : NPFIFOArray Cell
  bragg_counts : NPFIFOArray Cell
  bragg_aggregator : AggregatorWithID Cell
  data : StatData
  sum_data : StatData

namespace CBDStatisticsHandler

/-- `CBDStatisticsHandler.__init__`. -/
def init : CBDStatisticsHandler :=
  { number_of_streaks := NPFIFOArray.init (Cell.num (-1)) 5000 Cell.average
    streak_lengths := NPFIFOArray.init Cell.nan 50000 Cell.average
    bragg_counts := NPFIFOArray.init Cell.nan 50000 Cell.sum
    bragg_aggregator := AggregatorWithID.init Cell.nan 750000 Cell.sum
    data := StatData.empty
    sum_data := StatData.summaryInit }

/-- `CBDStatisticsHandler.parse(metadata, image)`.  Only the image's shape is
inspected by the source, so the image argument is its shape.  `binWidth` is
the fixed bin width (see `recordTable`). -/
def parse (h : CBDStatisticsHandler) (md : Metadata) (imageShape : List Nat)
    (binWidth : Int) : CBDStatisticsHandler :=
  let is_hit_frame := md.is_hit_frame.getD false
  if imageShape = [2, 2] then h
  else
    let braggVals := md.bragg_counts.getD [0]
    let pulse_id := md.pulse_id
    let h1 := { h with
      bragg_aggregator := h.bragg_aggregator.update (toCells braggVals) pulse_id }
    if is_hit_frame = false then h1
    else
      let h2 := { h1 with
        bragg_counts := h1.bragg_counts.update [Cell.sum (toCells braggVals)] }
      let h3 := { h2 with
        number_of_streaks := h2.number_of_streaks.update
          [Cell.num ((md.number_of_streaks.getD 0 : Int) : ℚ)] }
      let h4 := { h3 with
        streak_lengths := h3.streak_lengths.update
          (toCells (md.streak_lengths.getD [0])) }
      let ds := recordTable binWidth md is_hit_frame h4.data h4.sum_data
      { h4 with data := ds.1, sum_data := ds.2 }

/-- `CBDStatisticsHandler.reset`: clear every `data` list; zero the first
element of every `sum_data` counter list, keeping its `pulse_id_bins`. -/
def reset (h : CBDStatisticsHandler) : CBDStatisticsHandler :=
  { h with data := StatData.empty, sum_data := h.sum_data.zeroFirst }

/-- `CBDStatisticsHandler.clear`: clear the four rolling accumulators. -/
def clear (h : CBDStatisticsHandler) : CBDStatisticsHandler :=
  { h with
    number_of_streaks := h.number_of_streaks.clear
    streak_lengths := h.streak_lengths.clear
    bragg_counts := h.bragg_counts.clear
    bragg_aggregator := h.bragg_aggregator.clear }

end CBDStatisticsHandler

/-- States of the handler reachable from `__init__` through its public
operations. -/
inductive Reachable : CBDStatisticsHandler → Prop where
  | init : Reachable CBDStatisticsHandler.init
  | parse {h} (md : Metadata) (imageShape : List Nat) (binWidth : Int) :
      Reachable h → Reachable (h.parse md imageShape binWidth)
  | reset {h} : Reachable h → Reachable h.reset
  | clear {h} : Reachable h → Reachable h.clear

/-- Shape invariant of a statistics dictionary: every counter/ratio column
has the same number of rows as the `pulse_id_bins` key list. -/
def Aligned (d : StatData) : Prop :=
  ∀ k : StatKey, (d.col k).length = d.pulse_id_bins.length

/-- Shape invariant of `sum_data`: exactly one row, keyed `"Summary"`. -/
def SummaryShape (sd : StatData) : Prop :=
  sd.pulse_id_bins = [BinKey.summary] ∧ Aligned sd

/-- A cell is a nonnegative number or the `np.nan` marker (every counter cell
produced by the handler has this form). -/
def CellNonneg (c : Cell) : Prop :=
  ∀ q : ℚ, c = Cell.num q → 0 ≤ q

/-- The last five entries of a bin-key list (the lookback window). -/
def lastFive (bins : List BinKey) : List BinKey :=
  bins.drop (bins.length - 5)

/-- The six laser-related columns of a bin. -/
def laserKeys : List StatKey :=
  [.laser_on_nframes, .laser_on_hits, .laser_on_hits_ratio,
   .laser_off_nframes, .laser_off_hits, .laser_off_hits_ratio]

/-! ### Concrete fixtures used by the witness theorems -/

/-- A 3-slot `NPFIFOArray` holding `9, 8, 7` (newest first). -/
def fifoW : NPFIFOArray Cell :=
  { x := [Cell.num 9, Cell.num 8, Cell.num 7]
    nan := Cell.nan
    last_value := Cell.nan
    aggregate := Cell.sum }

/-- A 4-slot `AggregatorWithID` with two unread entries. -/
def aggW : AggregatorWithID Cell :=
  { x := [Cell.nan, Cell.nan, Cell.num 5, Cell.num 7]
    id := [0, 0, 11, 12]
    nan := Cell.nan
    last_value := Cell.num 7
    aggregate := Cell.sum
    last_processed_index := -2 }

/-- A freshly constructed 4-slot `AggregatorWithID` (no valid entries). -/
def aggEmpty : AggregatorWithID Cell :=
  AggregatorWithID.init Cell.nan 4 Cell.sum

/-- A table with seven bins keyed `1..7` (so key `1` is older than the
5-entry lookback window). -/
def tableW : StatData :=
  { pulse_id_bins := [.bin 1, .bin 2, .bin 3, .bin 4, .bin 5, .bin 6, .bin 7]
    nframes := List.replicate 7 (Cell.num 1)
    bad_frames := List.replicate 7 (Cell.num 0)
    sat_pix_nframes := List.replicate 7 (Cell.num 0)
    laser_on_nframes := List.replicate 7 (Cell.num 0)
    laser_on_hits := List.replicate 7 (Cell.num 0)
    laser_on_hits_ratio := List.replicate 7 (Cell.num 0)
    laser_off_nframes := List.replicate 7 (Cell.num 0)
    laser_off_hits := List.replicate 7 (Cell.num 0)
    laser_off_hits_ratio := List.replicate 7 (Cell.num 0) }

/-- A one-bin table (key `1`) with one recorded frame. -/
def tableOne : StatData :=
  { pulse_id_bins := [.bin 1]
    nframes := [Cell.num 1]
    bad_frames := [Cell.num 0]
    sat_pix_nframes := [Cell.num 1]
    laser_on_nframes := [Cell.num 1]
    laser_on_hits := [Cell.num 1]
    laser_on_hits_ratio := [Cell.num 1]
    laser_off_nframes := [Cell.num 0]
    laser_off_hits := [Cell.num 0]
    laser_off_hits_ratio := [Cell.num 0] }

/-- A one-bin table (key `1`) whose saturated-pixel and laser fields all
carry the `np.nan` marker. -/
def tableMarked : StatData :=
  { pulse_id_bins := [.bin 1]
    nframes := [Cell.num 2]
    bad_frames := [Cell.num 0]
    sat_pix_nframes := [Cell.nan]
    laser_on_nframes := [Cell.nan]
    laser_on_hits := [Cell.nan]
    laser_on_hits_ratio := [Cell.nan]
    laser_off_nframes := [Cell.nan]
    laser_off_hits := [Cell.nan]
    laser_off_hits_ratio := [Cell.nan] }

/-- A one-bin table (key `1`) where only `sat_pix_nframes` carries the
`np.nan` marker; the laser fields are numeric. -/
def tableSatOnly : StatData :=
  { pulse_id_bins := [.bin 1]
    nframes := [Cell.num 3]
    bad_frames := [Cell.num 0]
    sat_pix_nframes := [Cell.nan]
    laser_on_nframes := [Cell.num 2]
    laser_on_hits := [Cell.num 2]
    laser_on_hits_ratio := [Cell.num 1]
    laser_off_nframes := [Cell.num 1]
    laser_off_hits := [Cell.num 0]
    laser_off_hits_ratio := [Cell.num 0] }

/-- A summary row with some accumulated counts. -/
def sumW : StatData :=
  { pulse_id_bins := [BinKey.summary]
    nframes := [Cell.num 9]
    bad_frames := [Cell.num 2]
    sat_pix_nframes := [Cell.num 3]
    laser_on_nframes := [Cell.num 4]
    laser_on_hits := [Cell.num 2]
    laser_on_hits_ratio := [Cell.num (1 / 2)]
    laser_off_nframes := [Cell.num 5]
    laser_off_hits := [Cell.num 1]
    laser_off_hits_ratio := [Cell.num (1 / 5)]}

/-- Hit-frame metadata with pulse id `103`, a nonzero saturated-pixel count
and the laser flag on. -/
def mdW : Metadata :=
  { pulse_id := some 103
    is_hit_frame := some true
    is_good_frame := some false
    saturated_pixels := some 5
    laser_on := some true
    bragg_counts := some [2, 3]
    number_of_streaks := some 2
    streak_lengths := some [4, 6] }

/-- Hit-frame metadata with pulse id `100` and no optional fields. -/
def mdPlain : Metadata :=
  { pulse_id := some 100
    is_hit_frame := some true
    is_good_frame := none
    saturated_pixels := none
    laser_on := none
    bragg_counts := none
    number_of_streaks := none
    streak_lengths := none }

/-- Non-hit metadata with pulse id `42`. -/
def mdMiss : Metadata :=
  { pulse_id := some 42
    is_hit_frame := some false
    is_good_frame := none
    saturated_pixels := none
    laser_on := none
    bragg_counts := some [1, 2]
    number_of_streaks := none
    streak_lengths := none }

/-! ## Helper lemmas on the Python-semantics primitives -/

theorem pyIdx_natCast (n i : Nat) : pyIdx n (i : Int) = i := by
  simp [pyIdx]

theorem pyIdx_neg_one (n : Nat) : pyIdx n (-1) = n - 1 := by
  simp only [pyIdx]
  rw [if_pos (by norm_num)]
  omega

theorem pySet_length {α : Type} (xs : List α) (i : Int) (v : α) :
    (pySet xs i v).length = xs.length :=
  List.length_set xs _ v

theorem pyGet_pySet_self {α : Type} (xs : List α) (i : Int) (v d : α)
    (h : pyIdx xs.length i < xs.length) : pyGet (pySet xs i v) i d = v := by
  simp only [pyGet, pySet, List.length_set]
  simp [List.getD, List.getElem?_set_self', List.getElem?_eq_getElem h]

theorem pyGet_pySet_ne {α : Type} (xs : List α) (i j : Int) (v d : α)
    (h : pyIdx xs.length i ≠ pyIdx xs.length j) :
    pyGet (pySet xs i v) j d = pyGet xs j d := by
  simp only [pyGet, pySet, List.length_set]
  simp [List.getD, List.getElem?_set_ne h]

theorem npRoll_length {α : Type} (xs : List α) (k : Int) :
    (npRoll xs k).length = xs.length := by
  simp only [npRoll]
  split
  · rfl
  · simp


theorem npRoll_drop {α : Type} (xs : List α) (k : Nat) (h : k ≤ xs.length) :
    (npRoll xs (k : Int)).drop k = xs.take (xs.length - k) := by
  simp only [npRoll]
  by_cases h0 : xs.length = 0
  · have hk0 : k = 0 := by omega
    subst hk0
    simp_all
  · simp only [if_neg h0]
    rcases Nat.lt_or_ge k xs.length with hk | hk
    · have hmod : ((k : Int) % (xs.length : Int)) = k := by
        rw [Int.emod_eq_of_lt] <;> omega
      rw [hmod]
      have hlen : (xs.drop (xs.length - k)).length = k := by
        simp
        omega
      calc (xs.drop (xs.length - k) ++ xs.take (xs.length - k)).drop k
          = (xs.drop (xs.length - k) ++ xs.take (xs.length - k)).drop
              (xs.drop (xs.length - k)).length := by rw [hlen]
        _ = xs.take (xs.length - k) := List.drop_left _ _
    · have hkk : k = xs.length := le_antisymm h hk
      subst hkk
      simp

theorem getLastD_pySet_neg_one {α : Type} (xs : List α) (v d : α)
    (h : xs ≠ []) : (pySet xs (-1) v).getLastD d = v := by
  have hlen : 0 < xs.length := List.length_pos.mpr h
  have hidx : xs.length - 1 < xs.length := by omega
  simp only [pySet, pyIdx_neg_one]
  rw [List.getLastD_eq_getLast?, List.getLast?_eq_getElem? _,
    List.length_set]
  simp [List.getElem?_set_self', List.getElem?_eq_getElem hidx]

/-! ## Claims about the ring buffers -/

/-- **C6**: calling `AggregatorWithID.update` with an absent (`None`) pulse
identifier changes no state at all — values, identifiers, `last_value` and
the cursor are exactly as before (the source only logs a warning, which is
not part of the state).  The event is dropped non-fatally. -/
theorem claim_C6_update_none_noop {α : Type} (b : AggregatorWithID α)
    (values : List α) : b.update values none = b := rfl

/-- **C2**: for every non-empty batch of at most capacity values,
`NPFIFOArray.update` keeps the slot count equal to the capacity, produces
exactly the batch (in order) in the head slots followed by the previous
contents shifted right by `len(batch)` (the oldest `len(batch)` entries at
the tail are evicted), and sets `last_value` to the configured reduction of
the batch. -/
theorem claim_C2_ringbuffer_update {α : Type} (b : NPFIFOArray α)
    (values : List α) (hne : values ≠ []) (hle : values.length ≤ b.x.length) :
    (b.update values).x.length = b.x.length ∧
    (b.update values).x = values ++ b.x.take (b.x.length - values.length) ∧
    (b.update values).last_value = b.aggregate values := by
  refine ⟨?_, ?_, rfl⟩
  · simp [NPFIFOArray.update, npRoll_length]
    omega
  · simp only [NPFIFOArray.update]
    rw [npRoll_drop _ _ hle]

theorem claim_C2_witness :
    (fifoW.update [Cell.num 1, Cell.num 2]).x.length = fifoW.x.length ∧
    (fifoW.update [Cell.num 1, Cell.num 2]).x
      = [Cell.num 1, Cell.num 2] ++ fifoW.x.take (fifoW.x.length - 2) ∧
    (fifoW.update [Cell.num 1, Cell.num 2]).last_value
      = fifoW.aggregate [Cell.num 1, Cell.num 2] :=
  claim_C2_ringbuffer_update fifoW [Cell.num 1, Cell.num 2]
    (by decide) (by decide)

/-- **C4**: `drain` returns two empty sequences (and leaves the state
untouched) when the buffer has no valid entries or the cursor is `0`;
otherwise it returns exactly the unread suffix of `(value, identifier)`
pairs from the cursor position to the tail, in arrival order, and resets the
cursor to `0`.  Consequently a second `drain` with no intervening `update`
always returns two empty sequences (and when nothing was unread, the first
call does too). -/
theorem claim_C4_drain {α : Type} [DecidableEq α] (b : AggregatorWithID α) :
    ((b.isNonempty = false ∨ b.last_processed_index = 0) →
        b.drain = (([], []), b)) ∧
    (∀ k : Nat, b.isNonempty = true → b.last_processed_index = -(k : Int) →
        k ≠ 0 →
        b.drain = ((b.x.drop (b.x.length - k), b.id.drop (b.id.length - k)),
                   { b with last_processed_index := 0 })) ∧
    b.drain.2.drain.1 = ([], []) := by
  refine ⟨?_, ?_, ?_⟩
  · intro hc
    have hcond : ¬ b.isNonempty = true ∨ b.last_processed_index = 0 := by
      rcases hc with hc | hc
      · exact Or.inl (by simp [hc])
      · exact Or.inr hc
    unfold AggregatorWithID.drain
    rw [if_pos hcond]
  · intro k hne hk hk0
    have hcond : ¬ (¬ b.isNonempty = true ∨ b.last_processed_index = 0) := by
      push_neg
      refine ⟨hne, ?_⟩
      rw [hk]
      simp
      omega
    simp only [AggregatorWithID.drain, if_neg hcond]
    rw [hk]
    have hneg : (-(k : Int)) < 0 := by omega
    simp only [pySliceFrom, if_pos hneg, neg_neg, Int.toNat_natCast]
  · by_cases hc : (¬ b.isNonempty = true ∨ b.last_processed_index = 0)
    · have h1 : b.drain = (([], []), b) := by
        unfold AggregatorWithID.drain
        rw [if_pos hc]
      rw [h1]
      show b.drain.1 = ([], [])
      unfold AggregatorWithID.drain
      rw [if_pos hc]
    · have h1 : b.drain.2 = { b with last_processed_index := 0 } := by
        unfold AggregatorWithID.drain
        rw [if_neg hc]
      rw [h1]
      unfold AggregatorWithID.drain
      rw [if_pos (Or.inr rfl)]

theorem claim_C4_witness :
    aggW.drain = (([Cell.num 5, Cell.num 7], [11, 12]),
                  { aggW with last_processed_index := 0 }) ∧
    aggW.drain.2.drain.1 = ([], []) :=
  ⟨(claim_C4_drain aggW).2.1 2 (by decide) (by decide) (by decide),
   (claim_C4_drain aggW).2.2⟩

/-- **C8** counterexample: on a buffer with no valid entries, `last` does not
signal an error — the source unconditionally returns `(_x[-1], _id[-1])`,
the `(sentinel, 0)` fill pair of the fixed-size stores. -/
theorem claim_C8_counterexample :
    aggEmpty.count = 0 ∧ aggEmpty.last = (Cell.nan, 0) := by decide

/-- **C8** (amended): `last` returns the pair at the final slots
`(_x[-1], _id[-1])` — after an `update` that carried an identifier this is
the most recently appended `(value, identifier)` pair — and, being a pure
read, leaves the cursor unchanged; on a buffer with no valid entries it
returns the `(sentinel, 0)` fill pair rather than signalling an error. -/
theorem claim_C8_last {α : Type} (b : AggregatorWithID α) (values : List α)
    (pid : Int) (hx : b.x ≠ []) (hid : b.id ≠ []) :
    (b.update values (some pid)).last = (b.aggregate values, pid) := by
  have hx' : npRoll b.x (-1) ≠ [] := by
    intro hcon
    apply hx
    have hlen := npRoll_length b.x (-1)
    rw [hcon] at hlen
    exact List.length_eq_zero.mp hlen.symm
  have hid' : npRoll b.id (-1) ≠ [] := by
    intro hcon
    apply hid
    have hlen := npRoll_length b.id (-1)
    rw [hcon] at hlen
    exact List.length_eq_zero.mp hlen.symm
  simp only [AggregatorWithID.update, AggregatorWithID.last]
  rw [getLastD_pySet_neg_one _ _ _ hx', getLastD_pySet_neg_one _ _ _ hid']

theorem claim_C8_witness :
    (aggW.update [Cell.num 2, Cell.num 3] (some 13)).last
      = (aggW.aggregate [Cell.num 2, Cell.num 3], 13) :=
  claim_C8_last aggW [Cell.num 2, Cell.num 3] 13 (by decide) (by decide)

/-! ## Helper lemmas on the statistics dictionaries -/

theorem StatData.col_setCol_self (d : StatData) (k : StatKey) (l : List Cell) :
    (d.setCol k l).col k = l := by
  cases k <;> rfl

theorem StatData.col_setCol_ne (d : StatData) (k : StatKey) (l : List Cell)
    {k' : StatKey} (h : k' ≠ k) : (d.setCol k l).col k' = d.col k' := by
  cases k <;> cases k' <;> first | rfl | exact absurd rfl h

theorem StatData.pulse_id_bins_setCol (d : StatData) (k : StatKey)
    (l : List Cell) : (d.setCol k l).pulse_id_bins = d.pulse_id_bins := by
  cases k <;> rfl

theorem StatData.pulse_id_bins_setCell (d : StatData) (k : StatKey) (i : Int)
    (c : Cell) : (d.setCell k i c).pulse_id_bins = d.pulse_id_bins :=
  d.pulse_id_bins_setCol k _

theorem StatData.col_setCell_self (d : StatData) (k : StatKey) (i : Int)
    (c : Cell) : (d.setCell k i c).col k = pySet (d.col k) i c :=
  d.col_setCol_self k _

theorem StatData.col_setCell_ne (d : StatData) (k : StatKey) (i : Int)
    (c : Cell) {k' : StatKey} (h : k' ≠ k) :
    (d.setCell k i c).col k' = d.col k' :=
  d.col_setCol_ne k _ h

theorem StatData.length_col_setCell (d : StatData) (k : StatKey) (i : Int)
    (c : Cell) (k' : StatKey) :
    ((d.setCell k i c).col k').length = (d.col k').length := by
  by_cases h : k' = k
  · subst h
    rw [StatData.col_setCell_self]
    exact pySet_length _ _ _
  · rw [StatData.col_setCell_ne _ _ _ _ h]

theorem StatData.getCell_setCell_ne (d : StatData) (k : StatKey) (i : Int)
    (c : Cell) {k' : StatKey} (i' : Int) (h : k' ≠ k) :
    (d.setCell k i c).getCell k' i' = d.getCell k' i' := by
  unfold StatData.getCell
  rw [StatData.col_setCell_ne _ _ _ _ h]

theorem StatData.getCell_setCell_self (d : StatData) (k : StatKey) (i : Int)
    (c : Cell) (h : pyIdx (d.col k).length i < (d.col k).length) :
    (d.setCell k i c).getCell k i = c := by
  unfold StatData.getCell
  rw [StatData.col_setCell_self]
  unfold pyGet
  rw [pySet_length]
  simp only [pySet]
  simp [List.getD, List.getElem?_set_self', List.getElem?_eq_getElem h]

theorem increment_fst_pulse_id_bins (k : StatKey) (i : Int) (d sd : StatData) :
    (increment k i d sd).1.pulse_id_bins = d.pulse_id_bins :=
  d.pulse_id_bins_setCell k i _

theorem increment_snd_pulse_id_bins (k : StatKey) (i : Int) (d sd : StatData) :
    (increment k i d sd).2.pulse_id_bins = sd.pulse_id_bins :=
  sd.pulse_id_bins_setCell k _ _

theorem increment_fst_col_ne (k : StatKey) (i : Int) (d sd : StatData)
    {k' : StatKey} (h : k' ≠ k) :
    (increment k i d sd).1.col k' = d.col k' :=
  d.col_setCell_ne k i _ h

theorem increment_snd_col_ne (k : StatKey) (i : Int) (d sd : StatData)
    {k' : StatKey} (h : k' ≠ k) :
    (increment k i d sd).2.col k' = sd.col k' :=
  sd.col_setCell_ne k _ _ h

theorem increment_fst_col_self (k : StatKey) (i : Int) (d sd : StatData) :
    (increment k i d sd).1.col k
      = pySet (d.col k) i ((pyGet (d.col k) i Cell.nan).add1) :=
  d.col_setCell_self k i _

theorem increment_snd_col_self (k : StatKey) (i : Int) (d sd : StatData) :
    (increment k i d sd).2.col k
      = pySet (sd.col k) (-1) ((pyGet (sd.col k) (-1) Cell.nan).add1) :=
  sd.col_setCell_self k (-1) _

theorem increment_fst_length (k : StatKey) (i : Int) (d sd : StatData)
    (k' : StatKey) :
    ((increment k i d sd).1.col k').length = (d.col k').length :=
  d.length_col_setCell k i _ k'

theorem increment_snd_length (k : StatKey) (i : Int) (d sd : StatData)
    (k' : StatKey) :
    ((increment k i d sd).2.col k').length = (sd.col k').length :=
  sd.length_col_setCell k (-1) _ k'

theorem goodStep_fst_bins (md : Metadata) (i : Int) (p : StatData × StatData) :
    (goodStep md i p).1.pulse_id_bins = p.1.pulse_id_bins := by
  unfold goodStep
  split <;>
    simp [increment_fst_pulse_id_bins, StatData.pulse_id_bins_setCell, increment]

theorem goodStep_snd_bins (md : Metadata) (i : Int) (p : StatData × StatData) :
    (goodStep md i p).2.pulse_id_bins = p.2.pulse_id_bins := by
  unfold goodStep
  split <;>
    simp [increment_snd_pulse_id_bins, StatData.pulse_id_bins_setCell, increment]

theorem goodStep_fst_length (md : Metadata) (i : Int) (p : StatData × StatData)
    (k' : StatKey) :
    ((goodStep md i p).1.col k').length = (p.1.col k').length := by
  unfold goodStep
  split <;> simp [increment_fst_length, increment, StatData.length_col_setCell]

theorem goodStep_snd_length (md : Metadata) (i : Int) (p : StatData × StatData)
    (k' : StatKey) :
    ((goodStep md i p).2.col k').length = (p.2.col k').length := by
  unfold goodStep
  split <;> simp [increment_snd_length, increment, StatData.length_col_setCell]

theorem goodStep_fst_col_ne (md : Metadata) (i : Int) (p : StatData × StatData)
    {k' : StatKey} (h1 : k' ≠ .nframes) (h2 : k' ≠ .bad_frames) :
    (goodStep md i p).1.col k' = p.1.col k' := by
  unfold goodStep
  split <;>
    simp [increment, StatData.col_setCell_ne _ _ _ _ h1,
      StatData.col_setCell_ne _ _ _ _ h2]

theorem goodStep_snd_col_ne (md : Metadata) (i : Int) (p : StatData × StatData)
    {k' : StatKey} (h1 : k' ≠ .nframes) (h2 : k' ≠ .bad_frames) :
    (goodStep md i p).2.col k' = p.2.col k' := by
  unfold goodStep
  split <;>
    simp [increment, StatData.col_setCell_ne _ _ _ _ h1,
      StatData.col_setCell_ne _ _ _ _ h2]

theorem satStep_fst_bins (md : Metadata) (i : Int) (p : StatData × StatData) :
    (satStep md i p).1.pulse_id_bins = p.1.pulse_id_bins := by
  unfold satStep
  rcases hs : md.saturated_pixels with _ | k <;>
    simp [hs, increment, StatData.pulse_id_bins_setCell]
  split <;> simp [StatData.pulse_id_bins_setCell]

theorem satStep_snd_bins (md : Metadata) (i : Int) (p : StatData × StatData) :
    (satStep md i p).2.pulse_id_bins = p.2.pulse_id_bins := by
  unfold satStep
  rcases hs : md.saturated_pixels with _ | k <;>
    simp [hs, increment, StatData.pulse_id_bins_setCell]
  split <;> simp [StatData.pulse_id_bins_setCell]

theorem satStep_fst_length (md : Metadata) (i : Int) (p : StatData × StatData)
    (k' : StatKey) :
    ((satStep md i p).1.col k').length = (p.1.col k').length := by
  unfold satStep
  rcases hs : md.saturated_pixels with _ | k <;>
    simp [hs, increment, StatData.length_col_setCell]
  split <;> simp [StatData.length_col_setCell]

theorem satStep_snd_length (md : Metadata) (i : Int) (p : StatData × StatData)
    (k' : StatKey) :
    ((satStep md i p).2.col k').length = (p.2.col k').length := by
  unfold satStep
  rcases hs : md.saturated_pixels with _ | k <;>
    simp [hs, increment, StatData.length_col_setCell]
  split <;> simp [StatData.length_col_setCell]

theorem satStep_fst_col_ne (md : Metadata) (i : Int) (p : StatData × StatData)
    {k' : StatKey} (h : k' ≠ .sat_pix_nframes) :
    (satStep md i p).1.col k' = p.1.col k' := by
  unfold satStep
  rcases hs : md.saturated_pixels with _ | k <;>
    simp [hs, increment, StatData.col_setCell_ne _ _ _ _ h]
  split <;> simp [StatData.col_setCell_ne _ _ _ _ h]

theorem satStep_snd_col_ne (md : Metadata) (i : Int) (p : StatData × StatData)
    {k' : StatKey} (h : k' ≠ .sat_pix_nframes) :
    (satStep md i p).2.col k' = p.2.col k' := by
  unfold satStep
  rcases hs : md.saturated_pixels with _ | k <;>
    simp [hs, increment, StatData.col_setCell_ne _ _ _ _ h]
  split <;> simp [StatData.col_setCell_ne _ _ _ _ h]

theorem laserStep_fst_bins (md : Metadata) (hit : Bool) (i : Int)
    (p : StatData × StatData) :
    (laserStep md hit i p).1.pulse_id_bins = p.1.pulse_id_bins := by
  unfold laserStep
  rcases hl : md.laser_on with _ | b
  · simp [hl, laserNone, StatData.pulse_id_bins_setCell]
  · cases hit <;> simp [hl, laserSome, increment, laserNfKey, laserHitKey, laserRatKey, StatData.pulse_id_bins_setCell]

theorem laserStep_snd_bins (md : Metadata) (hit : Bool) (i : Int)
    (p : StatData × StatData) :
    (laserStep md hit i p).2.pulse_id_bins = p.2.pulse_id_bins := by
  unfold laserStep
  rcases hl : md.laser_on with _ | b
  · simp [hl, laserSome, laserNone]
  · cases hit <;> simp [hl, laserSome, laserNone, increment, laserNfKey, laserHitKey, laserRatKey, StatData.pulse_id_bins_setCell]

theorem laserStep_fst_length (md : Metadata) (hit : Bool) (i : Int)
    (p : StatData × StatData) (k' : StatKey) :
    ((laserStep md hit i p).1.col k').length = (p.1.col k').length := by
  unfold laserStep
  rcases hl : md.laser_on with _ | b
  · simp [hl, laserSome, laserNone, StatData.length_col_setCell]
  · cases hit <;> simp [hl, laserSome, laserNone, increment, laserNfKey, laserHitKey, laserRatKey, StatData.length_col_setCell]

theorem laserStep_snd_length (md : Metadata) (hit : Bool) (i : Int)
    (p : StatData × StatData) (k' : StatKey) :
    ((laserStep md hit i p).2.col k').length = (p.2.col k').length := by
  unfold laserStep
  rcases hl : md.laser_on with _ | b
  · simp [hl, laserSome, laserNone]
  · cases hit <;> simp [hl, laserSome, laserNone, increment, laserNfKey, laserHitKey, laserRatKey, StatData.length_col_setCell]

theorem laserStep_fst_col_ne (md : Metadata) (hit : Bool) (i : Int)
    (p : StatData × StatData) {k' : StatKey}
    (h1 : k' ≠ .laser_on_nframes) (h2 : k' ≠ .laser_on_hits)
    (h3 : k' ≠ .laser_on_hits_ratio) (h4 : k' ≠ .laser_off_nframes)
    (h5 : k' ≠ .laser_off_hits) (h6 : k' ≠ .laser_off_hits_ratio) :
    (laserStep md hit i p).1.col k' = p.1.col k' := by
  unfold laserStep
  rcases hl : md.laser_on with _ | b
  · simp [hl, laserSome, laserNone, StatData.col_setCell_ne _ _ _ _ h1,
      StatData.col_setCell_ne _ _ _ _ h2, StatData.col_setCell_ne _ _ _ _ h3,
      StatData.col_setCell_ne _ _ _ _ h4, StatData.col_setCell_ne _ _ _ _ h5,
      StatData.col_setCell_ne _ _ _ _ h6]
  · cases b <;> cases hit <;>
      simp [hl, laserSome, laserNone, increment, laserNfKey, laserHitKey, laserRatKey,
        StatData.col_setCell_ne _ _ _ _ h1,
        StatData.col_setCell_ne _ _ _ _ h2, StatData.col_setCell_ne _ _ _ _ h3,
        StatData.col_setCell_ne _ _ _ _ h4, StatData.col_setCell_ne _ _ _ _ h5,
        StatData.col_setCell_ne _ _ _ _ h6]

theorem laserStep_snd_col_ne (md : Metadata) (hit : Bool) (i : Int)
    (p : StatData × StatData) {k' : StatKey}
    (h1 : k' ≠ .laser_on_nframes) (h2 : k' ≠ .laser_on_hits)
    (h3 : k' ≠ .laser_on_hits_ratio) (h4 : k' ≠ .laser_off_nframes)
    (h5 : k' ≠ .laser_off_hits) (h6 : k' ≠ .laser_off_hits_ratio) :
    (laserStep md hit i p).2.col k' = p.2.col k' := by
  unfold laserStep
  rcases hl : md.laser_on with _ | b
  · simp [hl, laserSome, laserNone]
  · cases b <;> cases hit <;>
      simp [hl, laserSome, laserNone, increment, laserNfKey, laserHitKey, laserRatKey,
        StatData.col_setCell_ne _ _ _ _ h1,
        StatData.col_setCell_ne _ _ _ _ h2, StatData.col_setCell_ne _ _ _ _ h3,
        StatData.col_setCell_ne _ _ _ _ h4, StatData.col_setCell_ne _ _ _ _ h5,
        StatData.col_setCell_ne _ _ _ _ h6]

theorem recordCore_fst_bins (md : Metadata) (hit : Bool) (i : Int)
    (d sd : StatData) :
    (recordCore md hit i d sd).1.pulse_id_bins = d.pulse_id_bins := by
  unfold recordCore
  rw [laserStep_fst_bins, satStep_fst_bins, goodStep_fst_bins]

theorem recordCore_snd_bins (md : Metadata) (hit : Bool) (i : Int)
    (d sd : StatData) :
    (recordCore md hit i d sd).2.pulse_id_bins = sd.pulse_id_bins := by
  unfold recordCore
  rw [laserStep_snd_bins, satStep_snd_bins, goodStep_snd_bins]

theorem recordCore_fst_length (md : Metadata) (hit : Bool) (i : Int)
    (d sd : StatData) (k' : StatKey) :
    ((recordCore md hit i d sd).1.col k').length = (d.col k').length := by
  unfold recordCore
  rw [laserStep_fst_length, satStep_fst_length, goodStep_fst_length]

theorem recordCore_snd_length (md : Metadata) (hit : Bool) (i : Int)
    (d sd : StatData) (k' : StatKey) :
    ((recordCore md hit i d sd).2.col k').length = (sd.col k').length := by
  unfold recordCore
  rw [laserStep_snd_length, satStep_snd_length, goodStep_snd_length]

theorem pyStart_neg5 (n : Nat) : pyStart n (-5) = n - 5 := by
  unfold pyStart
  rw [if_pos (by norm_num)]
  rcases le_total ((n : Int) + (-5)) 0 with h | h
  · rw [max_eq_right h]
    omega
  · rw [max_eq_left h]
    omega

theorem binIndexOf_cases (bins : List BinKey) (key : Int) :
    (binIndexOf bins key = -1 ∧ BinKey.bin key ∉ lastFive bins) ∨
    (∃ i : Nat, binIndexOf bins key = (i : Int) ∧ i < bins.length ∧
        BinKey.bin key ∈ lastFive bins) := by
  unfold binIndexOf
  simp only [pyIndexFrom, pyStart_neg5]
  rcases hf : (bins.drop (bins.length - 5)).findIdx? (· = BinKey.bin key)
    with _ | j
  · left
    refine ⟨rfl, ?_⟩
    rw [List.findIdx?_eq_none_iff] at hf
    intro hmem
    have hfx := hf _ hmem
    simp at hfx
  · right
    rcases List.findIdx?_eq_some_iff_getElem.mp hf with ⟨hlt, hp, _⟩
    refine ⟨bins.length - 5 + j, rfl, ?_, ?_⟩
    · have hdl := List.length_drop (bins.length - 5) bins
      omega
    · have hmem := List.getElem_mem hlt
      simp only [decide_eq_true_eq] at hp
      rw [hp] at hmem
      exact hmem

/-! ## Claims about the binned statistics table -/

/-- **C1**: with a pulse identifier present, the bin key is
`pulse_id // BIN_WIDTH`; the call reuses an existing bin exactly when the key
occurs among the last 5 appended bins (the record then proceeds on the found
row and no bin is appended), and otherwise appends a new zero-initialized bin
at the tail and proceeds on it — also when an older bin beyond the 5-entry
lookback window carries the same key (the `lastFive` window is all that is
searched). -/
theorem claim_C1_bin_lookup (binWidth : Int) (md : Metadata) (hit : Bool)
    (d sd : StatData) (pid : Int) (hp : md.pulse_id = some pid) :
    (∀ i : Nat,
        pyIndexFrom d.pulse_id_bins (BinKey.bin (Int.fdiv pid binWidth)) (-5)
          = some i →
        recordTable binWidth md hit d sd = recordCore md hit (i : Int) d sd) ∧
    (pyIndexFrom d.pulse_id_bins (BinKey.bin (Int.fdiv pid binWidth)) (-5)
        = none →
      recordTable binWidth md hit d sd
        = recordCore md hit (-1)
            (d.appendZero (BinKey.bin (Int.fdiv pid binWidth))) sd) ∧
    ((recordTable binWidth md hit d sd).1.pulse_id_bins = d.pulse_id_bins
        ↔ BinKey.bin (Int.fdiv pid binWidth) ∈ lastFive d.pulse_id_bins) ∧
    (BinKey.bin (Int.fdiv pid binWidth) ∉ lastFive d.pulse_id_bins →
      (recordTable binWidth md hit d sd).1.pulse_id_bins
        = d.pulse_id_bins ++ [BinKey.bin (Int.fdiv pid binWidth)]) := by
  have hlookup := binIndexOf_cases d.pulse_id_bins (Int.fdiv pid binWidth)
  have hrt : recordTable binWidth md hit d sd
      = recordCore md hit (binIndexOf d.pulse_id_bins (Int.fdiv pid binWidth))
          (if binIndexOf d.pulse_id_bins (Int.fdiv pid binWidth) = (-1 : Int)
           then d.appendZero (BinKey.bin (Int.fdiv pid binWidth)) else d)
          sd := by
    unfold recordTable
    rw [hp]
  refine ⟨?_, ?_, ?_, ?_⟩
  · intro i hfound
    have hbi : binIndexOf d.pulse_id_bins (Int.fdiv pid binWidth) = (i : Int) := by
      unfold binIndexOf
      rw [hfound]
    rw [hrt, hbi, if_neg (by omega)]
  · intro hnone
    have hbi : binIndexOf d.pulse_id_bins (Int.fdiv pid binWidth) = -1 := by
      unfold binIndexOf
      rw [hnone]
    rw [hrt, hbi, if_pos rfl]
  · constructor
    · intro heq
      rcases hlookup with ⟨hbi, hnm⟩ | ⟨i, hbi, hlt, hmem⟩
      · rw [hrt, hbi, if_pos rfl, recordCore_fst_bins] at heq
        have hlen := congrArg List.length heq
        simp [StatData.appendZero] at hlen
      · exact hmem
    · intro hmem
      rcases hlookup with ⟨hbi, hnm⟩ | ⟨i, hbi, hlt, hmem'⟩
      · exact absurd hmem hnm
      · rw [hrt, hbi, if_neg (by omega), recordCore_fst_bins]
  · intro hnm
    rcases hlookup with ⟨hbi, _⟩ | ⟨i, hbi, hlt, hmem⟩
    · rw [hrt, hbi, if_pos rfl, recordCore_fst_bins]
      rfl
    · exact absurd hmem hnm

theorem claim_C1_witness :
    pyIndexFrom tableW.pulse_id_bins (BinKey.bin 1) (-5) = none ∧
    recordTable 100 mdPlain true tableW sumW
      = recordCore mdPlain true (-1) (tableW.appendZero (BinKey.bin 1)) sumW ∧
    (recordTable 100 mdPlain true tableW sumW).1.pulse_id_bins
      = tableW.pulse_id_bins ++ [BinKey.bin 1] :=
  ⟨by decide,
   (claim_C1_bin_lookup 100 mdPlain true tableW sumW 100 rfl).2.1 (by decide),
   (claim_C1_bin_lookup 100 mdPlain true tableW sumW 100 rfl).2.2.2 (by decide)⟩

theorem recordTable_eq_core (binWidth : Int) (md : Metadata) (hit : Bool)
    (d sd : StatData) (pid : Int) (hp : md.pulse_id = some pid) :
    recordTable binWidth md hit d sd
      = recordCore md hit (resolvedBin binWidth pid d)
          (resolvedData binWidth pid d) sd := by
  unfold recordTable resolvedBin resolvedData
  rw [hp]

theorem recordCore_fst_col_nframes (md : Metadata) (hit : Bool) (i : Int)
    (d sd : StatData) :
    (recordCore md hit i d sd).1.col .nframes
      = pySet (d.col .nframes) i ((pyGet (d.col .nframes) i Cell.nan).add1) := by
  unfold recordCore
  rw [@laserStep_fst_col_ne md hit i (satStep md i (goodStep md i (d, sd)))
        StatKey.nframes (by decide) (by decide) (by decide) (by decide)
        (by decide) (by decide),
      @satStep_fst_col_ne md i (goodStep md i (d, sd)) StatKey.nframes
        (by decide)]
  unfold goodStep
  split <;>
    simp [increment_fst_col_ne, increment_fst_col_self]

theorem recordCore_snd_col_nframes (md : Metadata) (hit : Bool) (i : Int)
    (d sd : StatData) :
    (recordCore md hit i d sd).2.col .nframes
      = pySet (sd.col .nframes) (-1)
          ((pyGet (sd.col .nframes) (-1) Cell.nan).add1) := by
  unfold recordCore
  rw [@laserStep_snd_col_ne md hit i (satStep md i (goodStep md i (d, sd)))
        StatKey.nframes (by decide) (by decide) (by decide) (by decide)
        (by decide) (by decide),
      @satStep_snd_col_ne md i (goodStep md i (d, sd)) StatKey.nframes
        (by decide)]
  unfold goodStep
  split <;>
    simp [increment_snd_col_ne, increment_snd_col_self]

theorem recordCore_fst_col_bad (md : Metadata) (hit : Bool) (i : Int)
    (d sd : StatData) :
    (recordCore md hit i d sd).1.col .bad_frames
      = if md.is_good_frame = some false
        then pySet (d.col .bad_frames) i
            ((pyGet (d.col .bad_frames) i Cell.nan).add1)
        else d.col .bad_frames := by
  unfold recordCore
  rw [@laserStep_fst_col_ne md hit i (satStep md i (goodStep md i (d, sd)))
        StatKey.bad_frames (by decide) (by decide) (by decide) (by decide)
        (by decide) (by decide),
      @satStep_fst_col_ne md i (goodStep md i (d, sd)) StatKey.bad_frames
        (by decide)]
  by_cases hg : md.is_good_frame = some false <;>
    simp [goodStep, hg, increment_fst_col_ne, increment_fst_col_self]

theorem recordCore_snd_col_bad (md : Metadata) (hit : Bool) (i : Int)
    (d sd : StatData) :
    (recordCore md hit i d sd).2.col .bad_frames
      = if md.is_good_frame = some false
        then pySet (sd.col .bad_frames) (-1)
            ((pyGet (sd.col .bad_frames) (-1) Cell.nan).add1)
        else sd.col .bad_frames := by
  unfold recordCore
  rw [@laserStep_snd_col_ne md hit i (satStep md i (goodStep md i (d, sd)))
        StatKey.bad_frames (by decide) (by decide) (by decide) (by decide)
        (by decide) (by decide),
      @satStep_snd_col_ne md i (goodStep md i (d, sd)) StatKey.bad_frames
        (by decide)]
  by_cases hg : md.is_good_frame = some false <;>
    simp [goodStep, hg, increment_snd_col_ne, increment_snd_col_self]

/-- `lst[i] += 1` observed back at `i`: in range this is the incremented
cell; out of range both the write and the read fall back to `nan`, on which
`add1` is absorbing (out of range does not occur on the embedded paths). -/
theorem pyGet_pySet_add1 (xs : List Cell) (i : Int) :
    pyGet (pySet xs i ((pyGet xs i Cell.nan).add1)) i Cell.nan
      = (pyGet xs i Cell.nan).add1 := by
  by_cases h : pyIdx xs.length i < xs.length
  · exact pyGet_pySet_self xs i _ Cell.nan h
  · push_neg at h
    unfold pyGet pySet
    rw [List.length_set]
    rw [List.getD_eq_default _ _ (by rw [List.length_set]; omega),
      List.getD_eq_default _ _ h]
    rfl

/-- **C5**: every record call (pulse identifier present) increments the
matched bin's and the summary row's `nframes` cell by exactly one (`+= 1`,
numerically `q ↦ q + 1` on number cells), and applies the same `+= 1` to
`bad_frames` of bin and summary precisely when the metadata carries a
good-frame flag that is false — otherwise both `bad_frames` cells are left
unchanged. -/
theorem claim_C5_frame_counters (binWidth : Int) (md : Metadata) (hit : Bool)
    (d sd : StatData) (pid : Int) (hp : md.pulse_id = some pid) :
    (recordTable binWidth md hit d sd).1.getCell .nframes
        (resolvedBin binWidth pid d)
      = ((resolvedData binWidth pid d).getCell .nframes
          (resolvedBin binWidth pid d)).add1 ∧
    (∀ q : ℚ, (resolvedData binWidth pid d).getCell .nframes
          (resolvedBin binWidth pid d) = Cell.num q →
        (recordTable binWidth md hit d sd).1.getCell .nframes
            (resolvedBin binWidth pid d) = Cell.num (q + 1)) ∧
    (recordTable binWidth md hit d sd).2.getCell .nframes (-1)
      = (sd.getCell .nframes (-1)).add1 ∧
    (∀ q : ℚ, sd.getCell .nframes (-1) = Cell.num q →
        (recordTable binWidth md hit d sd).2.getCell .nframes (-1)
          = Cell.num (q + 1)) ∧
    (md.is_good_frame = some false →
      (recordTable binWidth md hit d sd).1.getCell .bad_frames
          (resolvedBin binWidth pid d)
        = ((resolvedData binWidth pid d).getCell .bad_frames
            (resolvedBin binWidth pid d)).add1 ∧
      (recordTable binWidth md hit d sd).2.getCell .bad_frames (-1)
        = (sd.getCell .bad_frames (-1)).add1) ∧
    (¬ md.is_good_frame = some false →
      (recordTable binWidth md hit d sd).1.getCell .bad_frames
          (resolvedBin binWidth pid d)
        = (resolvedData binWidth pid d).getCell .bad_frames
            (resolvedBin binWidth pid d) ∧
      (recordTable binWidth md hit d sd).2.getCell .bad_frames (-1)
        = sd.getCell .bad_frames (-1)) := by
  rw [recordTable_eq_core binWidth md hit d sd pid hp]
  have hn1 : (recordCore md hit (resolvedBin binWidth pid d)
        (resolvedData binWidth pid d) sd).1.getCell .nframes
          (resolvedBin binWidth pid d)
      = ((resolvedData binWidth pid d).getCell .nframes
          (resolvedBin binWidth pid d)).add1 := by
    unfold StatData.getCell
    rw [recordCore_fst_col_nframes]
    exact pyGet_pySet_add1 _ _
  have hn2 : (recordCore md hit (resolvedBin binWidth pid d)
        (resolvedData binWidth pid d) sd).2.getCell .nframes (-1)
      = (sd.getCell .nframes (-1)).add1 := by
    unfold StatData.getCell
    rw [recordCore_snd_col_nframes]
    exact pyGet_pySet_add1 _ _
  refine ⟨hn1, ?_, hn2, ?_, ?_, ?_⟩
  · intro q hq
    rw [hn1, hq]
    rfl
  · intro q hq
    rw [hn2, hq]
    rfl
  · intro hg
    constructor
    · unfold StatData.getCell
      rw [recordCore_fst_col_bad, if_pos hg]
      exact pyGet_pySet_add1 _ _
    · unfold StatData.getCell
      rw [recordCore_snd_col_bad, if_pos hg]
      exact pyGet_pySet_add1 _ _
  · intro hg
    constructor
    · unfold StatData.getCell
      rw [recordCore_fst_col_bad, if_neg hg]
    · unfold StatData.getCell
      rw [recordCore_snd_col_bad, if_neg hg]

theorem claim_C5_witness :
    (recordTable 100 mdW true tableOne sumW).1.getCell .nframes
        (resolvedBin 100 103 tableOne)
      = ((resolvedData 100 103 tableOne).getCell .nframes
          (resolvedBin 100 103 tableOne)).add1 ∧
    (recordTable 100 mdW true tableOne sumW).2.getCell .nframes (-1)
      = (sumW.getCell .nframes (-1)).add1 ∧
    (recordTable 100 mdW true tableOne sumW).1.getCell .bad_frames
        (resolvedBin 100 103 tableOne)
      = ((resolvedData 100 103 tableOne).getCell .bad_frames
          (resolvedBin 100 103 tableOne)).add1 :=
  ⟨(claim_C5_frame_counters 100 mdW true tableOne sumW 103 rfl).1,
   (claim_C5_frame_counters 100 mdW true tableOne sumW 103 rfl).2.2.1,
   ((claim_C5_frame_counters 100 mdW true tableOne sumW 103 rfl).2.2.2.2.1
      rfl).1⟩

theorem increment_fst_getCell_self (k : StatKey) (i : Int) (d sd : StatData) :
    (increment k i d sd).1.getCell k i = (d.getCell k i).add1 := by
  unfold StatData.getCell
  rw [increment_fst_col_self]
  exact pyGet_pySet_add1 _ _

theorem increment_snd_getCell_self (k : StatKey) (i : Int) (d sd : StatData) :
    (increment k i d sd).2.getCell k (-1) = (sd.getCell k (-1)).add1 := by
  unfold StatData.getCell
  rw [increment_snd_col_self]
  exact pyGet_pySet_add1 _ _

theorem increment_fst_getCell_ne (k : StatKey) (i : Int) (d sd : StatData)
    {k' : StatKey} (i' : Int) (h : k' ≠ k) :
    (increment k i d sd).1.getCell k' i' = d.getCell k' i' := by
  unfold StatData.getCell
  rw [increment_fst_col_ne _ _ _ _ h]

theorem increment_snd_getCell_ne (k : StatKey) (i : Int) (d sd : StatData)
    {k' : StatKey} (i' : Int) (h : k' ≠ k) :
    (increment k i d sd).2.getCell k' i' = sd.getCell k' i' := by
  unfold StatData.getCell
  rw [increment_snd_col_ne _ _ _ _ h]

theorem pyGet_pySet_nan (xs : List Cell) (i : Int) :
    pyGet (pySet xs i Cell.nan) i Cell.nan = Cell.nan := by
  by_cases h : pyIdx xs.length i < xs.length
  · exact pyGet_pySet_self xs i _ _ h
  · push_neg at h
    unfold pyGet pySet
    rw [List.length_set]
    rw [List.getD_eq_default _ _ (by rw [List.length_set]; omega)]

theorem StatData.getCell_setCell_nan (d : StatData) (k : StatKey) (i : Int) :
    (d.setCell k i Cell.nan).getCell k i = Cell.nan := by
  unfold StatData.getCell
  rw [StatData.col_setCell_self]
  exact pyGet_pySet_nan _ _

theorem StatData.getCell_congr_col {d d' : StatData} (k : StatKey) (i : Int)
    (h : d.col k = d'.col k) : d.getCell k i = d'.getCell k i := by
  unfold StatData.getCell
  rw [h]

theorem StatData.col_appendZero (d : StatData) (key : BinKey) (k : StatKey) :
    (d.appendZero key).col k = d.col k ++ [Cell.num 0] := by
  cases k <;> rfl

theorem laserStep_eq_some (md : Metadata) (hit : Bool) (i : Int)
    (p : StatData × StatData) (b : Bool) (hl : md.laser_on = some b) :
    laserStep md hit i p = laserSome b hit i p := by
  unfold laserStep
  rw [hl]

theorem laserStep_eq_none (md : Metadata) (hit : Bool) (i : Int)
    (p : StatData × StatData) (hl : md.laser_on = none) :
    laserStep md hit i p = laserNone i p := by
  unfold laserStep
  rw [hl]

theorem laserSome_fst_rat_eq (b : Bool) (hit : Bool) (i : Int)
    (p : StatData × StatData)
    (hir : pyIdx ((p.1.col (laserRatKey b)).length) i
        < (p.1.col (laserRatKey b)).length) :
    (laserSome b hit i p).1.getCell (laserRatKey b) i
      = Cell.div ((laserSome b hit i p).1.getCell (laserHitKey b) i)
          ((laserSome b hit i p).1.getCell (laserNfKey b) i) := by
  have hHR : laserHitKey b ≠ laserRatKey b := by cases b <;> decide
  have hNR : laserNfKey b ≠ laserRatKey b := by cases b <;> decide
  simp only [laserSome]
  cases hit
  · rw [if_neg (by simp)]
    rw [StatData.getCell_setCell_self _ _ _ _
        (by rw [increment_fst_length]; exact hir)]
    rw [StatData.getCell_setCell_ne _ _ _ _ _ hHR,
        StatData.getCell_setCell_ne _ _ _ _ _ hNR]
  · rw [if_pos rfl]
    rw [StatData.getCell_setCell_self _ _ _ _
        (by rw [increment_fst_length, increment_fst_length]; exact hir)]
    rw [StatData.getCell_setCell_ne _ _ _ _ _ hHR,
        StatData.getCell_setCell_ne _ _ _ _ _ hNR]

theorem laserSome_snd_rat_eq (b : Bool) (hit : Bool) (i : Int)
    (p : StatData × StatData)
    (hir : pyIdx ((p.2.col (laserRatKey b)).length) (-1)
        < (p.2.col (laserRatKey b)).length) :
    (laserSome b hit i p).2.getCell (laserRatKey b) (-1)
      = Cell.div ((laserSome b hit i p).2.getCell (laserHitKey b) (-1))
          ((laserSome b hit i p).2.getCell (laserNfKey b) (-1)) := by
  have hHR : laserHitKey b ≠ laserRatKey b := by cases b <;> decide
  have hNR : laserNfKey b ≠ laserRatKey b := by cases b <;> decide
  simp only [laserSome]
  cases hit
  · rw [if_neg (by simp)]
    rw [StatData.getCell_setCell_self _ _ _ _
        (by rw [increment_snd_length]; exact hir)]
    rw [StatData.getCell_setCell_ne _ _ _ _ _ hHR,
        StatData.getCell_setCell_ne _ _ _ _ _ hNR]
  · rw [if_pos rfl]
    rw [StatData.getCell_setCell_self _ _ _ _
        (by rw [increment_snd_length, increment_snd_length]; exact hir)]
    rw [StatData.getCell_setCell_ne _ _ _ _ _ hHR,
        StatData.getCell_setCell_ne _ _ _ _ _ hNR]

theorem laserSome_fst_nf (b : Bool) (hit : Bool) (i : Int)
    (p : StatData × StatData) :
    (laserSome b hit i p).1.getCell (laserNfKey b) i
      = (p.1.getCell (laserNfKey b) i).add1 := by
  have hNR : laserNfKey b ≠ laserRatKey b := by cases b <;> decide
  have hNH : laserNfKey b ≠ laserHitKey b := by cases b <;> decide
  simp only [laserSome]
  cases hit
  · rw [if_neg (by simp)]
    rw [StatData.getCell_setCell_ne _ _ _ _ _ hNR, increment_fst_getCell_self]
  · rw [if_pos rfl]
    rw [StatData.getCell_setCell_ne _ _ _ _ _ hNR,
        increment_fst_getCell_ne _ _ _ _ _ hNH, increment_fst_getCell_self]

theorem laserSome_snd_nf (b : Bool) (hit : Bool) (i : Int)
    (p : StatData × StatData) :
    (laserSome b hit i p).2.getCell (laserNfKey b) (-1)
      = (p.2.getCell (laserNfKey b) (-1)).add1 := by
  have hNR : laserNfKey b ≠ laserRatKey b := by cases b <;> decide
  have hNH : laserNfKey b ≠ laserHitKey b := by cases b <;> decide
  simp only [laserSome]
  cases hit
  · rw [if_neg (by simp)]
    rw [StatData.getCell_setCell_ne _ _ _ _ _ hNR, increment_snd_getCell_self]
  · rw [if_pos rfl]
    rw [StatData.getCell_setCell_ne _ _ _ _ _ hNR,
        increment_snd_getCell_ne _ _ _ _ _ hNH, increment_snd_getCell_self]

theorem laserSome_fst_hit_true (b : Bool) (i : Int)
    (p : StatData × StatData) :
    (laserSome b true i p).1.getCell (laserHitKey b) i
      = (p.1.getCell (laserHitKey b) i).add1 := by
  have hHR : laserHitKey b ≠ laserRatKey b := by cases b <;> decide
  have hHN : laserHitKey b ≠ laserNfKey b := by cases b <;> decide
  simp only [laserSome]
  rw [if_pos trivial]
  rw [StatData.getCell_setCell_ne _ _ _ _ _ hHR, increment_fst_getCell_self,
      increment_fst_getCell_ne _ _ _ _ _ hHN]

theorem laserSome_fst_hit_false (b : Bool) (i : Int)
    (p : StatData × StatData) :
    (laserSome b false i p).1.getCell (laserHitKey b) i
      = p.1.getCell (laserHitKey b) i := by
  have hHR : laserHitKey b ≠ laserRatKey b := by cases b <;> decide
  have hHN : laserHitKey b ≠ laserNfKey b := by cases b <;> decide
  simp only [laserSome]
  rw [if_neg (by simp)]
  rw [StatData.getCell_setCell_ne _ _ _ _ _ hHR,
      increment_fst_getCell_ne _ _ _ _ _ hHN]

theorem laserSome_snd_hit_true (b : Bool) (i : Int)
    (p : StatData × StatData) :
    (laserSome b true i p).2.getCell (laserHitKey b) (-1)
      = (p.2.getCell (laserHitKey b) (-1)).add1 := by
  have hHR : laserHitKey b ≠ laserRatKey b := by cases b <;> decide
  have hHN : laserHitKey b ≠ laserNfKey b := by cases b <;> decide
  simp only [laserSome]
  rw [if_pos trivial]
  rw [StatData.getCell_setCell_ne _ _ _ _ _ hHR, increment_snd_getCell_self,
      increment_snd_getCell_ne _ _ _ _ _ hHN]

theorem laserNone_fst_getCell (i : Int) (p : StatData × StatData)
    (k : StatKey) (hk : k ∈ laserKeys) :
    (laserNone i p).1.getCell k i = Cell.nan := by
  fin_cases hk <;>
    simp [laserNone, StatData.getCell_setCell_ne, StatData.getCell_setCell_nan]

theorem resolved_in_range (binWidth pid : Int) (d : StatData)
    (halign : Aligned d) (k : StatKey) :
    pyIdx (((resolvedData binWidth pid d).col k).length)
        (resolvedBin binWidth pid d)
      < ((resolvedData binWidth pid d).col k).length := by
  unfold resolvedData resolvedBin
  rcases binIndexOf_cases d.pulse_id_bins (Int.fdiv pid binWidth) with
    ⟨hbi, _⟩ | ⟨i, hbi, hlt, _⟩
  · rw [hbi, if_pos rfl, StatData.col_appendZero, pyIdx_neg_one]
    simp
  · rw [hbi, if_neg (by omega), pyIdx_natCast, halign k]
    exact hlt

theorem resolved_getCell_cases (binWidth pid : Int) (d : StatData)
    (halign : Aligned d) (k : StatKey) :
    (resolvedData binWidth pid d).getCell k (resolvedBin binWidth pid d)
        ∈ d.col k ∨
    (resolvedData binWidth pid d).getCell k (resolvedBin binWidth pid d)
      = Cell.num 0 := by
  unfold resolvedData resolvedBin StatData.getCell
  rcases binIndexOf_cases d.pulse_id_bins (Int.fdiv pid binWidth) with
    ⟨hbi, _⟩ | ⟨i, hbi, hlt, _⟩
  · right
    rw [hbi, if_pos rfl, StatData.col_appendZero]
    unfold pyGet
    rw [pyIdx_neg_one]
    simp
  · left
    rw [hbi, if_neg (by omega)]
    unfold pyGet
    rw [pyIdx_natCast]
    have hi : i < (d.col k).length := by rw [halign k]; exact hlt
    rw [List.getD_eq_getElem?_getD, List.getElem?_eq_getElem hi]
    exact List.getElem_mem hi

/-- **C3**: whenever a record call processes a frame with the laser-state
flag present, the affected laser state's hit ratio is recomputed as exactly
`hits / nframes` (as cells, `nan` propagating) for both the matched bin and
the summary row; on number cells with `nframes = q > 0` the ratio is exactly
`hits / q`; and the corresponding `nframes` cell can never be the number `0`
at recomputation time (it has just been incremented from a nonnegative
count), so the zero-denominator guard of the claim holds vacuously: the
ratio is never recomputed against a zero `nframes`. -/
theorem claim_C3_hit_ratio (binWidth : Int) (md : Metadata) (hit : Bool)
    (d sd : StatData) (pid : Int) (b : Bool)
    (hp : md.pulse_id = some pid) (hl : md.laser_on = some b)
    (halign : Aligned d) (hs : SummaryShape sd)
    (hnn : ∀ c ∈ d.col (laserNfKey b), CellNonneg c)
    (hsnn : ∀ c ∈ sd.col (laserNfKey b), CellNonneg c) :
    ((recordTable binWidth md hit d sd).1.getCell (laserRatKey b)
        (resolvedBin binWidth pid d)
      = Cell.div
          ((recordTable binWidth md hit d sd).1.getCell (laserHitKey b)
            (resolvedBin binWidth pid d))
          ((recordTable binWidth md hit d sd).1.getCell (laserNfKey b)
            (resolvedBin binWidth pid d))) ∧
    ((recordTable binWidth md hit d sd).2.getCell (laserRatKey b) (-1)
      = Cell.div
          ((recordTable binWidth md hit d sd).2.getCell (laserHitKey b) (-1))
          ((recordTable binWidth md hit d sd).2.getCell (laserNfKey b)
            (-1))) ∧
    (∀ p q : ℚ,
        (recordTable binWidth md hit d sd).1.getCell (laserHitKey b)
            (resolvedBin binWidth pid d) = Cell.num p →
        (recordTable binWidth md hit d sd).1.getCell (laserNfKey b)
            (resolvedBin binWidth pid d) = Cell.num q →
        0 < q ∧
          (recordTable binWidth md hit d sd).1.getCell (laserRatKey b)
              (resolvedBin binWidth pid d) = Cell.num (p / q)) ∧
    (∀ p q : ℚ,
        (recordTable binWidth md hit d sd).2.getCell (laserHitKey b) (-1)
          = Cell.num p →
        (recordTable binWidth md hit d sd).2.getCell (laserNfKey b) (-1)
          = Cell.num q →
        0 < q ∧
          (recordTable binWidth md hit d sd).2.getCell (laserRatKey b) (-1)
            = Cell.num (p / q)) ∧
    (recordTable binWidth md hit d sd).1.getCell (laserNfKey b)
        (resolvedBin binWidth pid d) ≠ Cell.num 0 ∧
    (recordTable binWidth md hit d sd).2.getCell (laserNfKey b) (-1)
      ≠ Cell.num 0 := by
  have hRs : laserRatKey b ≠ StatKey.sat_pix_nframes := by cases b <;> decide
  have hRn : laserRatKey b ≠ StatKey.nframes := by cases b <;> decide
  have hRb : laserRatKey b ≠ StatKey.bad_frames := by cases b <;> decide
  have hNs : laserNfKey b ≠ StatKey.sat_pix_nframes := by cases b <;> decide
  have hNn : laserNfKey b ≠ StatKey.nframes := by cases b <;> decide
  have hNb : laserNfKey b ≠ StatKey.bad_frames := by cases b <;> decide
  rw [recordTable_eq_core binWidth md hit d sd pid hp]
  have hcore : recordCore md hit (resolvedBin binWidth pid d)
        (resolvedData binWidth pid d) sd
      = laserSome b hit (resolvedBin binWidth pid d)
          (satStep md (resolvedBin binWidth pid d)
            (goodStep md (resolvedBin binWidth pid d)
              (resolvedData binWidth pid d, sd))) := by
    unfold recordCore
    rw [laserStep_eq_some _ _ _ _ _ hl]
  rw [hcore]
  have hPr1 : (satStep md (resolvedBin binWidth pid d)
          (goodStep md (resolvedBin binWidth pid d)
            (resolvedData binWidth pid d, sd))).1.col (laserRatKey b)
      = (resolvedData binWidth pid d).col (laserRatKey b) := by
    rw [@satStep_fst_col_ne md _ _ (laserRatKey b) hRs,
        @goodStep_fst_col_ne md _ _ (laserRatKey b) hRn hRb]
  have hPn1 : (satStep md (resolvedBin binWidth pid d)
          (goodStep md (resolvedBin binWidth pid d)
            (resolvedData binWidth pid d, sd))).1.col (laserNfKey b)
      = (resolvedData binWidth pid d).col (laserNfKey b) := by
    rw [@satStep_fst_col_ne md _ _ (laserNfKey b) hNs,
        @goodStep_fst_col_ne md _ _ (laserNfKey b) hNn hNb]
  have hPr2 : (satStep md (resolvedBin binWidth pid d)
          (goodStep md (resolvedBin binWidth pid d)
            (resolvedData binWidth pid d, sd))).2.col (laserRatKey b)
      = sd.col (laserRatKey b) := by
    rw [@satStep_snd_col_ne md _ _ (laserRatKey b) hRs,
        @goodStep_snd_col_ne md _ _ (laserRatKey b) hRn hRb]
  have hPn2 : (satStep md (resolvedBin binWidth pid d)
          (goodStep md (resolvedBin binWidth pid d)
            (resolvedData binWidth pid d, sd))).2.col (laserNfKey b)
      = sd.col (laserNfKey b) := by
    rw [@satStep_snd_col_ne md _ _ (laserNfKey b) hNs,
        @goodStep_snd_col_ne md _ _ (laserNfKey b) hNn hNb]
  have hir1 : pyIdx (((satStep md (resolvedBin binWidth pid d)
          (goodStep md (resolvedBin binWidth pid d)
            (resolvedData binWidth pid d, sd))).1.col (laserRatKey b)).length)
        (resolvedBin binWidth pid d)
      < ((satStep md (resolvedBin binWidth pid d)
          (goodStep md (resolvedBin binWidth pid d)
            (resolvedData binWidth pid d, sd))).1.col
              (laserRatKey b)).length := by
    rw [hPr1]
    exact resolved_in_range binWidth pid d halign _
  have hsL : (sd.col (laserRatKey b)).length = 1 := by
    rw [hs.2 _, hs.1]
    rfl
  have hir2 : pyIdx (((satStep md (resolvedBin binWidth pid d)
          (goodStep md (resolvedBin binWidth pid d)
            (resolvedData binWidth pid d, sd))).2.col
              (laserRatKey b)).length) (-1)
      < ((satStep md (resolvedBin binWidth pid d)
          (goodStep md (resolvedBin binWidth pid d)
            (resolvedData binWidth pid d, sd))).2.col
              (laserRatKey b)).length := by
    rw [hPr2, hsL]
    decide
  have hrat1 := laserSome_fst_rat_eq b hit (resolvedBin binWidth pid d) _ hir1
  have hrat2 := laserSome_snd_rat_eq b hit (resolvedBin binWidth pid d) _ hir2
  have hnf1 : (laserSome b hit (resolvedBin binWidth pid d)
          (satStep md (resolvedBin binWidth pid d)
            (goodStep md (resolvedBin binWidth pid d)
              (resolvedData binWidth pid d, sd)))).1.getCell (laserNfKey b)
            (resolvedBin binWidth pid d)
      = ((resolvedData binWidth pid d).getCell (laserNfKey b)
          (resolvedBin binWidth pid d)).add1 := by
    rw [laserSome_fst_nf]
    congr 1
    exact StatData.getCell_congr_col _ _ hPn1
  have hnf2 : (laserSome b hit (resolvedBin binWidth pid d)
          (satStep md (resolvedBin binWidth pid d)
            (goodStep md (resolvedBin binWidth pid d)
              (resolvedData binWidth pid d, sd)))).2.getCell (laserNfKey b)
            (-1)
      = (sd.getCell (laserNfKey b) (-1)).add1 := by
    rw [laserSome_snd_nf]
    congr 1
    exact StatData.getCell_congr_col _ _ hPn2
  have hDnn : CellNonneg ((resolvedData binWidth pid d).getCell (laserNfKey b)
      (resolvedBin binWidth pid d)) := by
    rcases resolved_getCell_cases binWidth pid d halign (laserNfKey b) with
      hmem | h0
    · exact hnn _ hmem
    · rw [h0]
      intro q hq
      rw [Cell.num.injEq] at hq
      subst hq
      norm_num
  have hsDnn : CellNonneg (sd.getCell (laserNfKey b) (-1)) := by
    have hlen : (sd.col (laserNfKey b)).length = 1 := by
      rw [hs.2 _, hs.1]
      rfl
    have h0 : (0 : Nat) < (sd.col (laserNfKey b)).length := by omega
    apply hsnn
    unfold StatData.getCell pyGet
    rw [pyIdx_neg_one, hlen]
    rw [List.getD_eq_getElem?_getD, List.getElem?_eq_getElem h0]
    exact List.getElem_mem h0
  have hnz1 : (laserSome b hit (resolvedBin binWidth pid d)
          (satStep md (resolvedBin binWidth pid d)
            (goodStep md (resolvedBin binWidth pid d)
              (resolvedData binWidth pid d, sd)))).1.getCell (laserNfKey b)
            (resolvedBin binWidth pid d) ≠ Cell.num 0 := by
    rw [hnf1]
    rcases hDpre : (resolvedData binWidth pid d).getCell (laserNfKey b)
        (resolvedBin binWidth pid d) with q' | _
    · have hq' : (0 : ℚ) ≤ q' := hDnn q' hDpre
      simp only [Cell.add1]
      intro hcon
      rw [Cell.num.injEq] at hcon
      linarith
    · simp [Cell.add1]
  have hnz2 : (laserSome b hit (resolvedBin binWidth pid d)
          (satStep md (resolvedBin binWidth pid d)
            (goodStep md (resolvedBin binWidth pid d)
              (resolvedData binWidth pid d, sd)))).2.getCell (laserNfKey b)
            (-1) ≠ Cell.num 0 := by
    rw [hnf2]
    rcases hDpre : sd.getCell (laserNfKey b) (-1) with q' | _
    · have hq' : (0 : ℚ) ≤ q' := hsDnn q' hDpre
      simp only [Cell.add1]
      intro hcon
      rw [Cell.num.injEq] at hcon
      linarith
    · simp [Cell.add1]
  refine ⟨hrat1, hrat2, ?_, ?_, hnz1, hnz2⟩
  · intro p q hhit hnf
    have hq : 0 < q := by
      rw [hnf1] at hnf
      rcases hDpre : (resolvedData binWidth pid d).getCell (laserNfKey b)
          (resolvedBin binWidth pid d) with q' | _
      · rw [hDpre] at hnf
        simp only [Cell.add1] at hnf
        rw [Cell.num.injEq] at hnf
        have hq' : (0 : ℚ) ≤ q' := hDnn q' hDpre
        linarith
      · rw [hDpre] at hnf
        simp [Cell.add1] at hnf
    refine ⟨hq, ?_⟩
    rw [hrat1, hhit, hnf]
    simp [Cell.div, hq.ne']
  · intro p q hhit hnf
    have hq : 0 < q := by
      rw [hnf2] at hnf
      rcases hDpre : sd.getCell (laserNfKey b) (-1) with q' | _
      · rw [hDpre] at hnf
        simp only [Cell.add1] at hnf
        rw [Cell.num.injEq] at hnf
        have hq' : (0 : ℚ) ≤ q' := hsDnn q' hDpre
        linarith
      · rw [hDpre] at hnf
        simp [Cell.add1] at hnf
    refine ⟨hq, ?_⟩
    rw [hrat2, hhit, hnf]
    simp [Cell.div, hq.ne']

theorem claim_C3_witness :
    (recordTable 100 mdW true tableOne sumW).1.getCell (laserRatKey true)
        (resolvedBin 100 103 tableOne)
      = Cell.div
          ((recordTable 100 mdW true tableOne sumW).1.getCell
            (laserHitKey true) (resolvedBin 100 103 tableOne))
          ((recordTable 100 mdW true tableOne sumW).1.getCell
            (laserNfKey true) (resolvedBin 100 103 tableOne)) ∧
    (recordTable 100 mdW true tableOne sumW).2.getCell (laserNfKey true) (-1)
      ≠ Cell.num 0 := by
  have hnn : ∀ c ∈ tableOne.col (laserNfKey true), CellNonneg c := by
    intro c hc
    simp [tableOne, laserNfKey, StatData.col] at hc
    subst hc
    intro q hq
    rw [Cell.num.injEq] at hq
    subst hq
    norm_num
  have hsnn : ∀ c ∈ sumW.col (laserNfKey true), CellNonneg c := by
    intro c hc
    simp [sumW, laserNfKey, StatData.col] at hc
    subst hc
    intro q hq
    rw [Cell.num.injEq] at hq
    subst hq
    norm_num
  have h := claim_C3_hit_ratio 100 mdW true tableOne sumW 103 true rfl rfl
    (by intro k; cases k <;> rfl)
    (by exact ⟨rfl, by intro k; cases k <;> rfl⟩) hnn hsnn
  exact ⟨h.1, h.2.2.2.2.2⟩

theorem Cell.div_nan_left (c : Cell) : Cell.div Cell.nan c = Cell.nan := by
  cases c <;> rfl

theorem laserSome_fst_col_ne (b : Bool) (hit : Bool) (i : Int)
    (p : StatData × StatData) {k' : StatKey}
    (h1 : k' ≠ laserNfKey b) (h2 : k' ≠ laserHitKey b)
    (h3 : k' ≠ laserRatKey b) :
    (laserSome b hit i p).1.col k' = p.1.col k' := by
  simp only [laserSome]
  cases hit
  · rw [if_neg (by simp)]
    rw [StatData.col_setCell_ne _ _ _ _ h3, increment_fst_col_ne _ _ _ _ h1]
  · rw [if_pos rfl]
    rw [StatData.col_setCell_ne _ _ _ _ h3, increment_fst_col_ne _ _ _ _ h2,
        increment_fst_col_ne _ _ _ _ h1]

theorem satStep_fst_sat_absorb (md : Metadata) (i : Int)
    (p : StatData × StatData)
    (h : p.1.getCell .sat_pix_nframes i = Cell.nan) :
    (satStep md i p).1.getCell .sat_pix_nframes i = Cell.nan := by
  unfold satStep
  rcases hm : md.saturated_pixels with _ | m
  · simp only [hm]
    exact StatData.getCell_setCell_nan _ _ _
  · simp only [hm]
    by_cases h0 : m ≠ 0
    · rw [if_pos h0, increment_fst_getCell_self, h]
      rfl
    · rw [if_neg h0]
      exact h

theorem satStep_snd_inc (md : Metadata) (i : Int) (p : StatData × StatData)
    (m : Int) (hm : md.saturated_pixels = some m) (h0 : m ≠ 0) :
    (satStep md i p).2.getCell .sat_pix_nframes (-1)
      = (p.2.getCell .sat_pix_nframes (-1)).add1 := by
  unfold satStep
  simp only [hm]
  rw [if_pos h0]
  exact increment_snd_getCell_self _ _ _ _

theorem laserSome_fst_rat_absorb (b : Bool) (hit : Bool) (i : Int)
    (p : StatData × StatData)
    (hhit : p.1.getCell (laserHitKey b) i = Cell.nan) :
    (laserSome b hit i p).1.getCell (laserRatKey b) i = Cell.nan := by
  have hHN : laserHitKey b ≠ laserNfKey b := by cases b <;> decide
  simp only [laserSome]
  cases hit
  · rw [if_neg (by simp)]
    have ha : (increment (laserNfKey b) i p.1 p.2).1.getCell
        (laserHitKey b) i = Cell.nan := by
      rw [increment_fst_getCell_ne _ _ _ _ _ hHN]
      exact hhit
    rw [ha, Cell.div_nan_left]
    exact StatData.getCell_setCell_nan _ _ _
  · rw [if_pos rfl]
    have ha : (increment (laserHitKey b) i
          (increment (laserNfKey b) i p.1 p.2).1
          (increment (laserNfKey b) i p.1 p.2).2).1.getCell
        (laserHitKey b) i = Cell.nan := by
      rw [increment_fst_getCell_self, increment_fst_getCell_ne _ _ _ _ _ hHN,
          hhit]
      rfl
    rw [ha, Cell.div_nan_left]
    exact StatData.getCell_setCell_nan _ _ _

/-- **C10**: the `np.nan` marker is absorbing per field under subsequent
record calls that match the bin via the lookback window.  A `nan` in
`sat_pix_nframes` stays `nan` (the `+= 1` and the re-marking both preserve
it); a `nan` in any of the four laser nframes/hits counters stays `nan`
(`nan + 1 = nan`; columns of the other switch are untouched; re-marking
writes `nan`); a `nan` in a hits-ratio cell stays `nan` given the companion
hits cell of the same laser state is `nan` — the only statement that writes
the marker into a ratio cell (lines 147-152) writes it into that companion
in the same call, so the claim's precondition entails it, and the ratio
recomputation `hits / nframes` then propagates `nan`.  Meanwhile the
summary row's corresponding counters keep being incremented numerically
(`num q ↦ num (q+1)`) whenever their branch fires. -/
theorem claim_C10_nan_absorbing (binWidth : Int) (md : Metadata) (hit : Bool)
    (d sd : StatData) (pid : Int) (i : Nat)
    (hp : md.pulse_id = some pid)
    (hfound : pyIndexFrom d.pulse_id_bins
        (BinKey.bin (Int.fdiv pid binWidth)) (-5) = some i) :
    (d.getCell .sat_pix_nframes (i : Int) = Cell.nan →
      (recordTable binWidth md hit d sd).1.getCell .sat_pix_nframes (i : Int)
        = Cell.nan) ∧
    (∀ bb : Bool, d.getCell (laserNfKey bb) (i : Int) = Cell.nan →
      (recordTable binWidth md hit d sd).1.getCell (laserNfKey bb) (i : Int)
        = Cell.nan) ∧
    (∀ bb : Bool, d.getCell (laserHitKey bb) (i : Int) = Cell.nan →
      (recordTable binWidth md hit d sd).1.getCell (laserHitKey bb) (i : Int)
        = Cell.nan) ∧
    (∀ bb : Bool, d.getCell (laserRatKey bb) (i : Int) = Cell.nan →
      d.getCell (laserHitKey bb) (i : Int) = Cell.nan →
      (recordTable binWidth md hit d sd).1.getCell (laserRatKey bb) (i : Int)
        = Cell.nan) ∧
    (∀ m : Int, ∀ q : ℚ, md.saturated_pixels = some m → m ≠ 0 →
        sd.getCell .sat_pix_nframes (-1) = Cell.num q →
        (recordTable binWidth md hit d sd).2.getCell .sat_pix_nframes (-1)
          = Cell.num (q + 1)) ∧
    (∀ bb : Bool, ∀ q : ℚ, md.laser_on = some bb →
        sd.getCell (laserNfKey bb) (-1) = Cell.num q →
        (recordTable binWidth md hit d sd).2.getCell (laserNfKey bb) (-1)
          = Cell.num (q + 1)) ∧
    (∀ bb : Bool, ∀ q : ℚ, md.laser_on = some bb → hit = true →
        sd.getCell (laserHitKey bb) (-1) = Cell.num q →
        (recordTable binWidth md hit d sd).2.getCell (laserHitKey bb) (-1)
          = Cell.num (q + 1)) := by
  have hbi : binIndexOf d.pulse_id_bins (Int.fdiv pid binWidth)
      = (i : Int) := by
    unfold binIndexOf
    rw [hfound]
  have hrd : resolvedData binWidth pid d = d := by
    unfold resolvedData
    rw [hbi, if_neg (by omega)]
  have hrb : resolvedBin binWidth pid d = (i : Int) := hbi
  rw [recordTable_eq_core binWidth md hit d sd pid hp, hrd, hrb]
  have hPcol : ∀ k : StatKey, k ≠ .nframes → k ≠ .bad_frames →
      k ≠ .sat_pix_nframes →
      (satStep md (i : Int) (goodStep md (i : Int) (d, sd))).1.col k
        = d.col k := by
    intro k h1 h2 h3
    rw [@satStep_fst_col_ne md _ _ k h3, @goodStep_fst_col_ne md _ _ k h1 h2]
  refine ⟨?_, ?_, ?_, ?_, ?_, ?_, ?_⟩
  · intro hsat
    have hG_sat : (goodStep md (i : Int) (d, sd)).1.getCell .sat_pix_nframes
        (i : Int) = Cell.nan :=
      (StatData.getCell_congr_col _ _
        (goodStep_fst_col_ne md _ _ (by decide) (by decide))).trans hsat
    have hS_sat : (satStep md (i : Int) (goodStep md (i : Int)
        (d, sd))).1.getCell .sat_pix_nframes (i : Int) = Cell.nan :=
      satStep_fst_sat_absorb _ _ _ hG_sat
    unfold recordCore
    refine (StatData.getCell_congr_col _ _ ?_).trans hS_sat
    exact @laserStep_fst_col_ne md hit _ _ StatKey.sat_pix_nframes (by decide)
      (by decide) (by decide) (by decide) (by decide) (by decide)
  · intro bb hpre
    unfold recordCore
    rcases hl : md.laser_on with _ | bB
    · rw [laserStep_eq_none _ _ _ _ hl]
      exact laserNone_fst_getCell _ _ _ (by cases bb <;> decide)
    · by_cases hbb : bB = bb
      · subst hbb
        rw [laserStep_eq_some _ _ _ _ _ hl, laserSome_fst_nf,
            StatData.getCell_congr_col _ _ (hPcol (laserNfKey bB)
              (by cases bB <;> decide) (by cases bB <;> decide)
              (by cases bB <;> decide)), hpre]
        rfl
      · have hn1 : laserNfKey bb ≠ laserNfKey bB := by
          cases bb <;> cases bB <;> first | exact absurd rfl hbb | decide
        have hn2 : laserNfKey bb ≠ laserHitKey bB := by
          cases bb <;> cases bB <;> decide
        have hn3 : laserNfKey bb ≠ laserRatKey bB := by
          cases bb <;> cases bB <;> decide
        rw [laserStep_eq_some _ _ _ _ _ hl,
            StatData.getCell_congr_col _ _
              (laserSome_fst_col_ne bB hit _ _ hn1 hn2 hn3),
            StatData.getCell_congr_col _ _ (hPcol (laserNfKey bb)
              (by cases bb <;> decide) (by cases bb <;> decide)
              (by cases bb <;> decide))]
        exact hpre
  · intro bb hpre
    unfold recordCore
    rcases hl : md.laser_on with _ | bB
    · rw [laserStep_eq_none _ _ _ _ hl]
      exact laserNone_fst_getCell _ _ _ (by cases bb <;> decide)
    · by_cases hbb : bB = bb
      · subst hbb
        have hPhit : (satStep md (i : Int) (goodStep md (i : Int)
            (d, sd))).1.getCell (laserHitKey bB) (i : Int) = Cell.nan :=
          (StatData.getCell_congr_col _ _ (hPcol (laserHitKey bB)
            (by cases bB <;> decide) (by cases bB <;> decide)
            (by cases bB <;> decide))).trans hpre
        rw [laserStep_eq_some _ _ _ _ _ hl]
        cases hit
        · rw [laserSome_fst_hit_false]
          exact hPhit
        · rw [laserSome_fst_hit_true, hPhit]
          rfl
      · have hn1 : laserHitKey bb ≠ laserNfKey bB := by
          cases bb <;> cases bB <;> decide
        have hn2 : laserHitKey bb ≠ laserHitKey bB := by
          cases bb <;> cases bB <;> first | exact absurd rfl hbb | decide
        have hn3 : laserHitKey bb ≠ laserRatKey bB := by
          cases bb <;> cases bB <;> decide
        rw [laserStep_eq_some _ _ _ _ _ hl,
            StatData.getCell_congr_col _ _
              (laserSome_fst_col_ne bB hit _ _ hn1 hn2 hn3),
            StatData.getCell_congr_col _ _ (hPcol (laserHitKey bb)
              (by cases bb <;> decide) (by cases bb <;> decide)
              (by cases bb <;> decide))]
        exact hpre
  · intro bb hrat hhitc
    unfold recordCore
    rcases hl : md.laser_on with _ | bB
    · rw [laserStep_eq_none _ _ _ _ hl]
      exact laserNone_fst_getCell _ _ _ (by cases bb <;> decide)
    · by_cases hbb : bB = bb
      · subst hbb
        have hPhit : (satStep md (i : Int) (goodStep md (i : Int)
            (d, sd))).1.getCell (laserHitKey bB) (i : Int) = Cell.nan :=
          (StatData.getCell_congr_col _ _ (hPcol (laserHitKey bB)
            (by cases bB <;> decide) (by cases bB <;> decide)
            (by cases bB <;> decide))).trans hhitc
        rw [laserStep_eq_some _ _ _ _ _ hl]
        exact laserSome_fst_rat_absorb bB hit _ _ hPhit
      · have hn1 : laserRatKey bb ≠ laserNfKey bB := by
          cases bb <;> cases bB <;> decide
        have hn2 : laserRatKey bb ≠ laserHitKey bB := by
          cases bb <;> cases bB <;> decide
        have hn3 : laserRatKey bb ≠ laserRatKey bB := by
          cases bb <;> cases bB <;> first | exact absurd rfl hbb | decide
        rw [laserStep_eq_some _ _ _ _ _ hl,
            StatData.getCell_congr_col _ _
              (laserSome_fst_col_ne bB hit _ _ hn1 hn2 hn3),
            StatData.getCell_congr_col _ _ (hPcol (laserRatKey bb)
              (by cases bb <;> decide) (by cases bb <;> decide)
              (by cases bb <;> decide))]
        exact hrat
  · intro m q hm h0 hq
    unfold recordCore
    have h1 : (laserStep md hit (i : Int) (satStep md (i : Int)
        (goodStep md (i : Int) (d, sd)))).2.getCell .sat_pix_nframes (-1)
        = (satStep md (i : Int) (goodStep md (i : Int)
            (d, sd))).2.getCell .sat_pix_nframes (-1) :=
      StatData.getCell_congr_col _ _
        (@laserStep_snd_col_ne md hit _ _ StatKey.sat_pix_nframes (by decide)
          (by decide) (by decide) (by decide) (by decide) (by decide))
    rw [h1, satStep_snd_inc md _ _ m hm h0,
        StatData.getCell_congr_col _ _
          (goodStep_snd_col_ne md _ _ (by decide) (by decide)), hq]
    rfl
  · intro bb q hl hq
    unfold recordCore
    rw [laserStep_eq_some _ _ _ _ _ hl, laserSome_snd_nf]
    have hcol : (satStep md (i : Int) (goodStep md (i : Int)
        (d, sd))).2.col (laserNfKey bb) = sd.col (laserNfKey bb) := by
      rw [@satStep_snd_col_ne md _ _ (laserNfKey bb) (by cases bb <;> decide),
          @goodStep_snd_col_ne md _ _ (laserNfKey bb) (by cases bb <;> decide)
            (by cases bb <;> decide)]
    rw [StatData.getCell_congr_col _ _ hcol, hq]
    rfl
  · intro bb q hl hhit hq
    subst hhit
    unfold recordCore
    rw [laserStep_eq_some _ _ _ _ _ hl, laserSome_snd_hit_true]
    have hcol : (satStep md (i : Int) (goodStep md (i : Int)
        (d, sd))).2.col (laserHitKey bb) = sd.col (laserHitKey bb) := by
      rw [@satStep_snd_col_ne md _ _ (laserHitKey bb) (by cases bb <;> decide),
          @goodStep_snd_col_ne md _ _ (laserHitKey bb) (by cases bb <;> decide)
            (by cases bb <;> decide)]
    rw [StatData.getCell_congr_col _ _ hcol, hq]
    rfl

theorem claim_C10_witness :
    (recordTable 100 mdW true tableSatOnly sumW).1.getCell .sat_pix_nframes 0
      = Cell.nan ∧
    (recordTable 100 mdW true tableMarked sumW).1.getCell
        .laser_on_hits_ratio 0 = Cell.nan ∧
    (recordTable 100 mdW true tableMarked sumW).1.getCell
        .laser_on_nframes 0 = Cell.nan ∧
    (recordTable 100 mdW true tableSatOnly sumW).2.getCell .sat_pix_nframes
        (-1) = Cell.num 4 := by
  have h1 := claim_C10_nan_absorbing 100 mdW true tableSatOnly sumW 103 0 rfl
    (by decide)
  have h2 := claim_C10_nan_absorbing 100 mdW true tableMarked sumW 103 0 rfl
    (by decide)
  refine ⟨h1.1 (by decide), h2.2.2.2.1 true (by decide) (by decide),
    h2.2.1 true (by decide), ?_⟩
  have h3 := h1.2.2.2.2.1 5 3 rfl (by decide) (by decide)
  rw [h3]
  norm_num

theorem StatData.zeroFirst_bins (sd : StatData) :
    sd.zeroFirst.pulse_id_bins = sd.pulse_id_bins := rfl

theorem StatData.zeroFirst_col (sd : StatData) (k : StatKey) :
    sd.zeroFirst.col k = pySet (sd.col k) 0 (Cell.num 0) := by
  cases k <;> rfl

theorem recordTable_snd_bins (binWidth : Int) (md : Metadata) (hit : Bool)
    (d sd : StatData) :
    (recordTable binWidth md hit d sd).2.pulse_id_bins = sd.pulse_id_bins := by
  unfold recordTable
  rcases hp : md.pulse_id with _ | pid
  · simp [hp]
  · simp only [hp]
    exact recordCore_snd_bins _ _ _ _ _

theorem recordTable_snd_length (binWidth : Int) (md : Metadata) (hit : Bool)
    (d sd : StatData) (k : StatKey) :
    ((recordTable binWidth md hit d sd).2.col k).length
      = (sd.col k).length := by
  unfold recordTable
  rcases hp : md.pulse_id with _ | pid
  · simp [hp]
  · simp only [hp]
    exact recordCore_snd_length _ _ _ _ _ _

theorem parse_sum_bins (h : CBDStatisticsHandler) (md : Metadata)
    (imageShape : List Nat) (binWidth : Int) :
    (h.parse md imageShape binWidth).sum_data.pulse_id_bins
      = h.sum_data.pulse_id_bins := by
  unfold CBDStatisticsHandler.parse
  by_cases hs : imageShape = [2, 2]
  · rw [if_pos hs]
  · rw [if_neg hs]
    by_cases hh : md.is_hit_frame.getD false = false
    · simp [hh]
    · simp [hh]
      exact recordTable_snd_bins _ _ _ _ _

theorem parse_sum_length (h : CBDStatisticsHandler) (md : Metadata)
    (imageShape : List Nat) (binWidth : Int) (k : StatKey) :
    ((h.parse md imageShape binWidth).sum_data.col k).length
      = (h.sum_data.col k).length := by
  unfold CBDStatisticsHandler.parse
  by_cases hs : imageShape = [2, 2]
  · rw [if_pos hs]
  · rw [if_neg hs]
    by_cases hh : md.is_hit_frame.getD false = false
    · simp [hh]
    · simp [hh]
      exact recordTable_snd_length _ _ _ _ _ _

/-- Every reachable handler state keeps the summary dictionary at exactly
one row, keyed `"Summary"`. -/
theorem reachable_summaryShape (h : CBDStatisticsHandler)
    (hr : Reachable h) : SummaryShape h.sum_data := by
  induction hr with
  | init => exact ⟨rfl, by intro k; cases k <;> rfl⟩
  | parse md imageShape binWidth hr ih =>
    constructor
    · rw [parse_sum_bins]
      exact ih.1
    · intro k
      rw [parse_sum_length, parse_sum_bins]
      exact ih.2 k
  | reset hr ih =>
    constructor
    · rw [CBDStatisticsHandler.reset, StatData.zeroFirst_bins]
      exact ih.1
    · intro k
      rw [CBDStatisticsHandler.reset, StatData.zeroFirst_bins,
        StatData.zeroFirst_col, pySet_length]
      exact ih.2 k
  | clear hr ih => exact ih

/-- **C7**: from every reachable state, `reset()` empties all `data` lists
(the bin sequence in particular), zeroes every summary counter, and leaves
the summary's `"Summary"` key in place. -/
theorem claim_C7_reset (h : CBDStatisticsHandler) (hr : Reachable h) :
    h.reset.data = StatData.empty ∧
    h.reset.sum_data.pulse_id_bins = [BinKey.summary] ∧
    ∀ k : StatKey, h.reset.sum_data.col k = [Cell.num 0] := by
  have hs := reachable_summaryShape h hr
  refine ⟨rfl, ?_, ?_⟩
  · show h.sum_data.zeroFirst.pulse_id_bins = _
    rw [StatData.zeroFirst_bins]
    exact hs.1
  · intro k
    have hlen : (h.sum_data.col k).length = 1 := by
      rw [hs.2 k, hs.1]
      rfl
    rcases List.length_eq_one.mp hlen with ⟨a, ha⟩
    show h.sum_data.zeroFirst.col k = [Cell.num 0]
    rw [StatData.zeroFirst_col, ha]
    rfl

theorem claim_C7_witness :
    CBDStatisticsHandler.init.reset.data = StatData.empty ∧
    CBDStatisticsHandler.init.reset.sum_data.pulse_id_bins
      = [BinKey.summary] ∧
    CBDStatisticsHandler.init.reset.sum_data.col .nframes = [Cell.num 0] :=
  ⟨(claim_C7_reset CBDStatisticsHandler.init Reachable.init).1,
   (claim_C7_reset CBDStatisticsHandler.init Reachable.init).2.1,
   (claim_C7_reset CBDStatisticsHandler.init Reachable.init).2.2 .nframes⟩

/-- **C9**: the facade's `parse` is a no-op on the dummy sentinel shape
`(2, 2)`; otherwise it always feeds the bragg counts and the pulse
identifier into the identified aggregator (hit or not), and on a non-hit
frame it leaves the three rolling buffers and both statistics dictionaries
untouched. -/
theorem claim_C9_facade (h : CBDStatisticsHandler) (md : Metadata)
    (imageShape : List Nat) (binWidth : Int) :
    (imageShape = [2, 2] → h.parse md imageShape binWidth = h) ∧
    (imageShape ≠ [2, 2] →
      (h.parse md imageShape binWidth).bragg_aggregator
        = h.bragg_aggregator.update (toCells (md.bragg_counts.getD [0]))
            md.pulse_id ∧
      (md.is_hit_frame.getD false = false →
        (h.parse md imageShape binWidth).number_of_streaks
            = h.number_of_streaks ∧
        (h.parse md imageShape binWidth).streak_lengths = h.streak_lengths ∧
        (h.parse md imageShape binWidth).bragg_counts = h.bragg_counts ∧
        (h.parse md imageShape binWidth).data = h.data ∧
        (h.parse md imageShape binWidth).sum_data = h.sum_data)) := by
  constructor
  · intro hs
    unfold CBDStatisticsHandler.parse
    rw [if_pos hs]
  · intro hs
    constructor
    · unfold CBDStatisticsHandler.parse
      rw [if_neg hs]
      by_cases hh : md.is_hit_frame.getD false = false <;> simp [hh]
    · intro hh
      unfold CBDStatisticsHandler.parse
      rw [if_neg hs]
      simp [hh]

theorem claim_C9_witness :
    CBDStatisticsHandler.init.parse mdMiss [2, 2] 10000
      = CBDStatisticsHandler.init ∧
    (CBDStatisticsHandler.init.parse mdMiss [3, 3] 10000).bragg_aggregator
      = CBDStatisticsHandler.init.bragg_aggregator.update
          (toCells [1, 2]) (some 42) ∧
    (CBDStatisticsHandler.init.parse mdMiss [3, 3] 10000).data
      = CBDStatisticsHandler.init.data :=
  ⟨(claim_C9_facade CBDStatisticsHandler.init mdMiss [2, 2] 10000).1 rfl,
   ((claim_C9_facade CBDStatisticsHandler.init mdMiss [3, 3] 10000).2
      (by decide)).1,
   (((claim_C9_facade CBDStatisticsHandler.init mdMiss [3, 3] 10000).2
      (by decide)).2 rfl).2.2.2.1⟩
